import Mathlib

/-!
# TcpTimely (ns-3 congestion control), `src/internet/model/tcp-timely.cc`

A shallow embedding of the TIMELY-style rate controller and the properties its
specification states about it.

Conventions of the embedding.

* `double` members (`m_alpha`, `m_beta`, `m_delta`, `m_thigh`, `m_tlow`, `m_rttDiff`,
  `m_rate`) are rationals: the arithmetic of the source is followed exactly, rounding,
  infinities and NaN are not represented.  A quotient whose divisor is zero is therefore
  outside the embedding; statements that depend on such a quotient assume a non-zero divisor.
* `Time` is the ns-3 time value: a signed tick count at the simulator resolution.  The
  class itself (`src/core/model/nstime.h`) is not part of the sources read here, so the
  resolution is a parameter of every operation that converts ticks to microseconds.
* Sequence numbers, the congestion window, the slow-start threshold and the segment size are
  32-bit unsigned values held in `Nat`.
-/

namespace ns3

/-! ## Time -/

/-- The resolution of `Time`: the duration of one tick.  ns-3 starts with `NS`
(nanoseconds) unless a simulation script changes it. -/
inductive Resolution where
  | US
  | NS
  | PS
  | FS
  deriving DecidableEq, Repr

/-- Number of ticks that make one microsecond at a resolution. -/
def Resolution.ticksPerUs : Resolution → Int
  | .US => 1
  | .NS => 1000
  | .PS => 1000000
  | .FS => 1000000000

/-- An ns-3 `Time`: the raw tick count (`m_data`, a 64-bit signed integer). -/
abbrev Time := Int

/-- The constructor `Time (v)` from an integer: `v` ticks, whatever the resolution. -/
def Time.ofTicks (v : Int) : Time := v

/-- The largest `Time`, `Time::Max ()`: the largest 64-bit signed tick count. -/
def Time.Max : Time := 2 ^ 63 - 1

/-- The test `Time::IsZero`. -/
def Time.IsZero (t : Time) : Bool := decide (t = 0)

/-- The conversion `Time::GetMicroSeconds`: the tick count divided by the number of ticks
per microsecond, the quotient truncated toward zero as C++ integer division does. -/
def Time.GetMicroSeconds (res : Resolution) (t : Time) : Int :=
  Int.tdiv t res.ticksPerUs

/-! ## Sequence numbers and the socket state -/

/-- The comparison `operator>` of `SequenceNumber32`, which takes wrap-around into
account (half of the largest 32-bit value is `2147483647`). -/
def seqGt (a b : Nat) : Bool :=
  (decide (a > b) && decide (a - b ≤ 2147483647)) ||
    (decide (b > a) && decide (b - a > 2147483647))

/-- The comparison `operator>=` of `SequenceNumber32`: equal or greater. -/
def seqGe (a b : Nat) : Bool := decide (a = b) || seqGt a b

/-- The comparison `operator<` of `SequenceNumber32`: neither greater nor equal. -/
def seqLt (a b : Nat) : Bool := !seqGt a b && decide (a ≠ b)

/-- The congestion states of `TcpSocketState::TcpCongState_t`. -/
inductive TcpCongState_t where
  | CA_OPEN
  | CA_DISORDER
  | CA_CWR
  | CA_RECOVERY
  | CA_LOSS
  deriving DecidableEq, Repr

/-- The fields of `TcpSocketState` that the controller reads or writes. -/
structure TcpSocketState where
  m_cWnd : Nat
  m_ssThresh : Nat
  m_segmentSize : Nat
  m_lastAckedSeq : Nat
  m_nextTxSequence : Nat
  deriving DecidableEq, Repr

/-- The conversion of a `double` to the `uint32_t` congestion window in the assignment
`tcb->m_cWnd = ...`: the fractional part is discarded.  C++ defines the result only when the
truncated value lies in `[0, 2^32)`; outside that range this function reduces it modulo `2^32`. -/
def toUint32 (x : ℚ) : Nat :=
  (Int.emod (Int.tdiv x.num x.den) (2 ^ 32)).toNat

/-! ## The controller -/

/-- The members of `TcpTimely`.  `new_rtt` is the last sample in microseconds; `m_rate` and
`m_compEvents` are the rate and the count of consecutive improving cycles. -/
structure TcpTimely where
  m_alpha : ℚ
  m_beta : ℚ
  m_delta : ℚ
  m_baseRtt : Time
  m_minRtt : Time
  m_cntRtt : Nat
  m_doingTimelyNow : Bool
  m_begSndNxt : Nat
  m_thigh : ℚ
  m_tlow : ℚ
  m_prevRtt : Time
  m_rttDiff : ℚ
  m_rate : ℚ
  m_compEvents : Nat
  new_rtt : Int
  deriving DecidableEq

namespace TcpTimely

/-- The default constructor `TcpTimely::TcpTimely (void)`.  It gives no value to `m_rate`,
`m_compEvents` and `new_rtt`, and `TMP_MAX` comes from the C library: these four are
arguments here. -/
def init (TMP_MAX : Int) (rate : ℚ) (compEvents : Nat) (newRtt : Int) : TcpTimely :=
  { m_alpha := 1 / 10
    m_beta := 8 / 10
    m_delta := 1
    m_baseRtt := Time.Max
    m_minRtt := Time.ofTicks TMP_MAX
    m_cntRtt := 0
    m_doingTimelyNow := true
    m_begSndNxt := 0
    m_thigh := 50000
    m_tlow := 2000
    m_prevRtt := Time.Max
    m_rttDiff := 0
    m_rate := rate
    m_compEvents := compEvents
    new_rtt := newRtt }

/-- The method `TcpTimely::PktsAcked`: a zero sample is dropped; any other sample is recorded
in microseconds, lowers the base RTT if it is smaller, and is counted. -/
def PktsAcked (res : Resolution) (s : TcpTimely) (rtt : Time) : TcpTimely :=
  if rtt.IsZero then s
  else
    { s with
      new_rtt := rtt.GetMicroSeconds res
      m_baseRtt := min s.m_baseRtt rtt
      m_cntRtt := s.m_cntRtt + 1 }

/-- The method `TcpTimely::EnableTimely`. -/
def EnableTimely (s : TcpTimely) (tcb : TcpSocketState) : TcpTimely :=
  { s with
    m_doingTimelyNow := true
    m_begSndNxt := tcb.m_nextTxSequence
    m_cntRtt := 0
    m_minRtt := Time.ofTicks 2000000 }

/-- The method `TcpTimely::DisableTimely`. -/
def DisableTimely (s : TcpTimely) : TcpTimely :=
  { s with m_doingTimelyNow := false }

/-- The method `TcpTimely::CongestionStateSet`: the controller is on exactly in `CA_OPEN`. -/
def CongestionStateSet (s : TcpTimely) (tcb : TcpSocketState) (newState : TcpCongState_t) :
    TcpTimely :=
  if newState = TcpCongState_t.CA_OPEN then EnableTimely s tcb else DisableTimely s

/-- The method `TcpTimely::IncreaseWindow`.  `newReno` stands for `TcpNewReno::IncreaseWindow`,
which acts on the socket state only.  The result is the controller and the socket state
after the call. -/
def IncreaseWindow (res : Resolution) (newReno : TcpSocketState → Nat → TcpSocketState)
    (s : TcpTimely) (tcb : TcpSocketState) (segmentsAcked : Nat) : TcpTimely × TcpSocketState :=
  if !s.m_doingTimelyNow then
    (s, newReno tcb segmentsAcked)
  else if seqGe tcb.m_lastAckedSeq s.m_begSndNxt then
    let new_rtt_diff_us : ℚ := ((s.new_rtt - s.m_prevRtt.GetMicroSeconds res : Int) : ℚ)
    let rttDiff : ℚ := (1 - s.m_alpha) * s.m_rttDiff + s.m_alpha * new_rtt_diff_us
    let minRttUs : ℚ := ((s.m_minRtt.GetMicroSeconds res : Int) : ℚ)
    let normalized_gradient : ℚ := rttDiff / minRttUs
    let s1 : TcpTimely :=
      { s with
        m_begSndNxt := tcb.m_nextTxSequence
        m_prevRtt := Time.ofTicks s.new_rtt
        m_rttDiff := rttDiff }
    if (s.new_rtt : ℚ) < s.m_tlow then
      let rate := s.m_rate + s.m_delta
      ({ s1 with m_compEvents := 0, m_rate := rate },
       { tcb with m_cWnd := toUint32 (rate * minRttUs) })
    else if (s.new_rtt : ℚ) > s.m_thigh then
      let rate := s.m_rate * (1 - s.m_beta * (1 - s.m_thigh / (s.new_rtt : ℚ)))
      ({ s1 with m_compEvents := 0, m_rate := rate },
       { tcb with m_cWnd := toUint32 (rate * minRttUs) })
    else
      let s2 : TcpTimely :=
        if normalized_gradient ≤ 0 then
          let compEvents := s.m_compEvents + 1
          let N : ℚ := if compEvents ≥ 5 then 5 else 1
          { s1 with
            m_compEvents := if compEvents ≥ 5 then 0 else compEvents
            m_rate := s.m_rate + N * s.m_delta }
        else
          { s1 with
            m_rate := s.m_rate * (1 - s.m_beta * normalized_gradient)
            m_compEvents := 0 }
      ({ s2 with m_baseRtt := min s2.m_baseRtt (Time.ofTicks s.new_rtt) },
       { tcb with m_cWnd := toUint32 (s2.m_rate * minRttUs) })
  else
    (s, tcb)

/-- The method `TcpTimely::GetSsThresh`, in 32-bit unsigned arithmetic: the subtraction and
the doubling wrap modulo `2^32`. -/
def GetSsThresh (tcb : TcpSocketState) (_bytesInFlight : Nat) : Nat :=
  max (min tcb.m_ssThresh ((tcb.m_cWnd + 2 ^ 32 - tcb.m_segmentSize) % 2 ^ 32))
    ((2 * tcb.m_segmentSize) % 2 ^ 32)

end TcpTimely

/-! ## Calls and runs -/

/-- A cycle boundary: the controller is on and the highest acknowledged sequence number has
reached the start of the cycle, the two tests `IncreaseWindow` makes before it adapts. -/
def cycleBoundary (s : TcpTimely) (tcb : TcpSocketState) : Prop :=
  s.m_doingTimelyNow = true ∧ seqGe tcb.m_lastAckedSeq s.m_begSndNxt = true

/-- Being at a cycle boundary is decidable: it is a conjunction of two boolean tests. -/
instance (s : TcpTimely) (tcb : TcpSocketState) : Decidable (cycleBoundary s tcb) :=
  inferInstanceAs (Decidable (_ ∧ _))

/-- One call of the socket into the controller, with the socket state it passes. -/
inductive Call where
  | pktsAcked (rtt : Time)
  | congestionStateSet (tcb : TcpSocketState) (newState : TcpCongState_t)
  | increaseWindow (tcb : TcpSocketState) (segmentsAcked : Nat)
  deriving DecidableEq

/-- The controller after one call. -/
def step (res : Resolution) (newReno : TcpSocketState → Nat → TcpSocketState)
    (s : TcpTimely) : Call → TcpTimely
  | Call.pktsAcked rtt => TcpTimely.PktsAcked res s rtt
  | Call.congestionStateSet tcb newState => TcpTimely.CongestionStateSet s tcb newState
  | Call.increaseWindow tcb n => (TcpTimely.IncreaseWindow res newReno s tcb n).1

/-- The controller after a sequence of calls, first call first. -/
def run (res : Resolution) (newReno : TcpSocketState → Nat → TcpSocketState)
    (s : TcpTimely) (cs : List Call) : TcpTimely :=
  cs.foldl (step res newReno) s

/-- The RTT samples passed to `PktsAcked` in a sequence of calls. -/
def samples : List Call → List Time
  | [] => []
  | Call.pktsAcked rtt :: cs => rtt :: samples cs
  | _ :: cs => samples cs

/-- A call that closes no cycle when made in state `s`: anything but an `IncreaseWindow` at a
cycle boundary. -/
def closesNoCycle (s : TcpTimely) : Call → Prop
  | Call.increaseWindow tcb _ => ¬ cycleBoundary s tcb
  | _ => True

/-- A sequence of calls none of which closes a cycle, started in state `s`. -/
def quiet (res : Resolution) (newReno : TcpSocketState → Nat → TcpSocketState) :
    TcpTimely → List Call → Prop
  | _, [] => True
  | s, c :: cs => closesNoCycle s c ∧ quiet res newReno (step res newReno s c) cs

/-! ## The specification's reading of a cycle -/

namespace Spec

/-- The four regions of the decision. -/
inductive Region where
  | tooLow
  | tooHigh
  | improving
  | worsening
  deriving DecidableEq, Repr

/-- The smoothed gradient of a cycle closed in state `s`:
`(1 − alpha) × delayGradientEwma + alpha × (newDelay − prevDelay)`, delays in microseconds. -/
def delayGradientEwma (res : Resolution) (s : TcpTimely) : ℚ :=
  (1 - s.m_alpha) * s.m_rttDiff +
    s.m_alpha * ((s.new_rtt : ℚ) - ((s.m_prevRtt.GetMicroSeconds res : Int) : ℚ))

/-- The normalising delay `minDelayForCycle`, in microseconds. -/
def minDelayForCycle (res : Resolution) (s : TcpTimely) : ℚ :=
  ((s.m_minRtt.GetMicroSeconds res : Int) : ℚ)

/-- The normalised gradient `delayGradientEwma / minDelayForCycle` of the cycle. -/
def normalizedGradient (res : Resolution) (s : TcpTimely) : ℚ :=
  delayGradientEwma res s / minDelayForCycle res s

/-- The region of a cycle closed in state `s`: the first condition that holds, in the order
too low, too high, improving, worsening. -/
def regionOf (res : Resolution) (s : TcpTimely) : Region :=
  if (s.new_rtt : ℚ) < s.m_tlow then Region.tooLow
  else if (s.new_rtt : ℚ) > s.m_thigh then Region.tooHigh
  else if normalizedGradient res s ≤ 0 then Region.improving
  else Region.worsening

/-- The rate update of each region. -/
def rateUpdate (res : Resolution) (s : TcpTimely) : Region → ℚ
  | Region.tooLow => s.m_rate + s.m_delta
  | Region.tooHigh => s.m_rate * (1 - s.m_beta * (1 - s.m_thigh / (s.new_rtt : ℚ)))
  | Region.improving => s.m_rate + (if s.m_compEvents + 1 < 5 then 1 else 5) * s.m_delta
  | Region.worsening => s.m_rate * (1 - s.m_beta * normalizedGradient res s)

/-- The count of consecutive improvements after a cycle: the old count plus one after an
improving cycle whose incremented count is below 5, zero otherwise. -/
def consecutiveImprovementsAfter (s : TcpTimely) (r : Region) : Nat :=
  if r = Region.improving ∧ s.m_compEvents + 1 < 5 then s.m_compEvents + 1 else 0

end Spec

/-! ## Cycles and example states -/

/-- A cycle: the calls made while it runs, none of which closes it, and the arguments of the
`IncreaseWindow` call that closes it. -/
structure Cycle where
  before : List Call
  tcb : TcpSocketState
  segmentsAcked : Nat

/-- The controller after a cycle started in state `s`. -/
def closeCycle (res : Resolution) (newReno : TcpSocketState → Nat → TcpSocketState)
    (s : TcpTimely) (c : Cycle) : TcpTimely :=
  (TcpTimely.IncreaseWindow res newReno (run res newReno s c.before) c.tcb c.segmentsAcked).1

/-- The cycle `c`, started in state `s`, ends at a cycle boundary in the improving region, and
the normalising delay is not zero there. -/
def improvingCycle (res : Resolution) (newReno : TcpSocketState → Nat → TcpSocketState)
    (s : TcpTimely) (c : Cycle) : Prop :=
  quiet res newReno s c.before ∧
  cycleBoundary (run res newReno s c.before) c.tcb ∧
  Spec.regionOf res (run res newReno s c.before) = Spec.Region.improving ∧
  Spec.minDelayForCycle res (run res newReno s c.before) ≠ 0

/-- State used in the examples: the default configuration, the controller on with the
normalising delay `EnableTimely` sets, rate 10, and a last sample of 1500 microseconds. -/
def exampleState : TcpTimely :=
  { m_alpha := 1 / 10, m_beta := 8 / 10, m_delta := 1, m_baseRtt := 1500000,
    m_minRtt := Time.ofTicks 2000000, m_cntRtt := 1, m_doingTimelyNow := true,
    m_begSndNxt := 100, m_thigh := 50000, m_tlow := 2000, m_prevRtt := Time.ofTicks 1500,
    m_rttDiff := 0, m_rate := 10, m_compEvents := 0, new_rtt := 1500 }

/-- Socket state used in the examples: everything up to sequence number 100 is acknowledged,
the next byte to send is 200. -/
def exampleTcb : TcpSocketState :=
  { m_cWnd := 10000, m_ssThresh := 8000, m_segmentSize := 1000, m_lastAckedSeq := 100,
    m_nextTxSequence := 200 }

/-- Stand-in for `TcpNewReno::IncreaseWindow` in the examples: one segment more. -/
def exampleNewReno (tcb : TcpSocketState) (_segmentsAcked : Nat) : TcpSocketState :=
  { tcb with m_cWnd := tcb.m_cWnd + tcb.m_segmentSize }

/-- State used in the example of five improving cycles: the example state with a last sample
of 3000 microseconds and a strongly negative smoothed gradient. -/
def improvingState : TcpTimely :=
  { exampleState with m_rttDiff := -1000000, new_rtt := 3000 }

/-- The `i`-th cycle of the example: one sample of 3000 microseconds (in nanosecond ticks),
then an `IncreaseWindow` when sequence number `100 × i` is acknowledged and `100 × (i + 1)` is
the next to send. -/
def improvingCycleAt (i : Nat) : Cycle :=
  { before := [Call.pktsAcked 3000000]
    tcb := { exampleTcb with m_lastAckedSeq := 100 * i, m_nextTxSequence := 100 * (i + 1) }
    segmentsAcked := 1 }

/-- The state after the first `i` cycles of the example, at nanosecond resolution. -/
def improvingRun : Nat → TcpTimely
  | 0 => improvingState
  | i + 1 => closeCycle Resolution.NS exampleNewReno (improvingRun i) (improvingCycleAt (i + 1))

/-- A freshly enabled controller with rate 10 that has received one sample of 1500
microseconds, at nanosecond resolution: constructed, enabled with the example socket state
(next sequence number to send 200), then one `PktsAcked`.  `238328` is the value of `TMP_MAX`
in the GNU C library. -/
def freshlyEnabled : TcpTimely :=
  TcpTimely.PktsAcked Resolution.NS
    (TcpTimely.EnableTimely (TcpTimely.init 238328 10 0 0) exampleTcb) 1500000

/-- The same construction when one tick of `Time` is a microsecond. -/
def freshlyEnabledUS : TcpTimely :=
  TcpTimely.PktsAcked Resolution.US
    (TcpTimely.EnableTimely (TcpTimely.init 238328 10 0 0) exampleTcb) 1500

/-- Socket state in which sequence number 200 is acknowledged and 300 is the next to send. -/
def exampleTcb200 : TcpSocketState :=
  { exampleTcb with m_lastAckedSeq := 200, m_nextTxSequence := 300 }

/-- The example state with a last sample of 60000 microseconds, above `tHigh`. -/
def tooHighState : TcpTimely :=
  { exampleState with new_rtt := 60000 }

/-- The example state at the end of a cycle whose last sample, 50000 microseconds, lies
between the thresholds while the smoothed gradient is large and positive. -/
def worseningState : TcpTimely :=
  { exampleState with m_rttDiff := 10000000, new_rtt := 50000, m_prevRtt := Time.ofTicks 0 }

/-- Start of the example with two equal samples: the example state with a last sample of
3000 microseconds. -/
def sameDelayStart : TcpTimely :=
  { exampleState with new_rtt := 3000 }

/-- The example with two equal samples, after the first cycle boundary. -/
def sameDelayFirst (res : Resolution) : TcpTimely :=
  (TcpTimely.IncreaseWindow res exampleNewReno sameDelayStart exampleTcb 1).1

/-- The example with two equal samples, after the first cycle boundary and a second sample of
3000 microseconds (`3000 × ticksPerUs` ticks). -/
def sameDelaySampled (res : Resolution) : TcpTimely :=
  TcpTimely.PktsAcked res (sameDelayFirst res) (Time.ofTicks (3000 * res.ticksPerUs))

/-- The example with two equal samples, after the second cycle boundary. -/
def sameDelaySecond (res : Resolution) : TcpTimely :=
  (TcpTimely.IncreaseWindow res exampleNewReno (sameDelaySampled res) exampleTcb200 1).1

/-- Calls used in the example of the base RTT: two samples, an enable, a cycle boundary and a
third sample. -/
def exampleCalls : List Call :=
  [Call.pktsAcked 1500000, Call.pktsAcked 1200000,
    Call.congestionStateSet exampleTcb TcpCongState_t.CA_OPEN,
    Call.increaseWindow exampleTcb200 1]

/-- Socket state in which everything sent is acknowledged: sequence number 200 is both the
highest acknowledged and the next to send. -/
def allAckedTcb : TcpSocketState :=
  { exampleTcb with m_lastAckedSeq := 200, m_nextTxSequence := 200 }

/-- Socket state with a window of 500 bytes, smaller than the segment size of 1000, and a
slow-start threshold of 8000. -/
def smallWindowTcb : TcpSocketState :=
  { exampleTcb with m_cWnd := 500 }

/-- The example state with the controller off. -/
def disabledState : TcpTimely :=
  { exampleState with m_doingTimelyNow := false }

/-- The example of the base RTT at a cycle boundary, at nanosecond resolution: the example
state (base RTT 1500 microseconds, that is 1500000 ticks) with a strongly negative smoothed
gradient, after a sample of 3000 microseconds (3000000 ticks). -/
def baseDelaySampled : TcpTimely :=
  TcpTimely.PktsAcked Resolution.NS { exampleState with m_rttDiff := -1000000 } 3000000

/-- A freshly constructed controller, enabled by the constructor, with rate 10, whose last
sample is 3000 microseconds. -/
def freshlyConstructed : TcpTimely :=
  TcpTimely.init 238328 10 0 3000

/-! ## `IncreaseWindow`, branch by branch -/

open TcpTimely

/-- With the controller off, `IncreaseWindow` hands the socket state to NewReno and keeps the
controller as it is. -/
theorem IncreaseWindow_disabled (res : Resolution)
    (newReno : TcpSocketState → Nat → TcpSocketState) (s : TcpTimely) (tcb : TcpSocketState)
    (n : Nat) (h : s.m_doingTimelyNow = false) :
    IncreaseWindow res newReno s tcb n = (s, newReno tcb n) := by
  simp [IncreaseWindow, h]

/-- With the controller on and the cycle not finished, `IncreaseWindow` changes nothing. -/
theorem IncreaseWindow_midCycle (res : Resolution)
    (newReno : TcpSocketState → Nat → TcpSocketState) (s : TcpTimely) (tcb : TcpSocketState)
    (n : Nat) (hen : s.m_doingTimelyNow = true)
    (h : seqGe tcb.m_lastAckedSeq s.m_begSndNxt = false) :
    IncreaseWindow res newReno s tcb n = (s, tcb) := by
  simp [IncreaseWindow, h, hen]

/-- Away from a cycle boundary `IncreaseWindow` leaves the controller as it is. -/
theorem IncreaseWindow_not_boundary (res : Resolution)
    (newReno : TcpSocketState → Nat → TcpSocketState) (s : TcpTimely) (tcb : TcpSocketState)
    (n : Nat) (h : ¬ cycleBoundary s tcb) :
    (IncreaseWindow res newReno s tcb n).1 = s := by
  unfold cycleBoundary at h
  cases hen : s.m_doingTimelyNow
  · rw [IncreaseWindow_disabled res newReno s tcb n hen]
  · cases hge : seqGe tcb.m_lastAckedSeq s.m_begSndNxt
    · rw [IncreaseWindow_midCycle res newReno s tcb n hen hge]
    · exact absurd ⟨hen, hge⟩ h

/-- The result of `IncreaseWindow` at a cycle boundary when the last sample is below `tLow`. -/
theorem IncreaseWindow_tooLow (res : Resolution)
    (newReno : TcpSocketState → Nat → TcpSocketState) (s : TcpTimely) (tcb : TcpSocketState)
    (n : Nat) (hb : cycleBoundary s tcb) (h1 : (s.new_rtt : ℚ) < s.m_tlow) :
    IncreaseWindow res newReno s tcb n =
      ({ s with
          m_begSndNxt := tcb.m_nextTxSequence
          m_prevRtt := Time.ofTicks s.new_rtt
          m_rttDiff := Spec.delayGradientEwma res s
          m_compEvents := 0
          m_rate := s.m_rate + s.m_delta },
       { tcb with
          m_cWnd := toUint32 ((s.m_rate + s.m_delta) * Spec.minDelayForCycle res s) }) := by
  obtain ⟨hen, hge⟩ := hb
  simp [IncreaseWindow, hen, hge, h1, Spec.delayGradientEwma, Spec.minDelayForCycle]

/-- The result of `IncreaseWindow` at a cycle boundary when the last sample is above `tHigh`. -/
theorem IncreaseWindow_tooHigh (res : Resolution)
    (newReno : TcpSocketState → Nat → TcpSocketState) (s : TcpTimely) (tcb : TcpSocketState)
    (n : Nat) (hb : cycleBoundary s tcb) (h1 : ¬ (s.new_rtt : ℚ) < s.m_tlow)
    (h2 : (s.new_rtt : ℚ) > s.m_thigh) :
    IncreaseWindow res newReno s tcb n =
      ({ s with
          m_begSndNxt := tcb.m_nextTxSequence
          m_prevRtt := Time.ofTicks s.new_rtt
          m_rttDiff := Spec.delayGradientEwma res s
          m_compEvents := 0
          m_rate := s.m_rate * (1 - s.m_beta * (1 - s.m_thigh / (s.new_rtt : ℚ))) },
       { tcb with
          m_cWnd := toUint32 (s.m_rate * (1 - s.m_beta * (1 - s.m_thigh / (s.new_rtt : ℚ)))
            * Spec.minDelayForCycle res s) }) := by
  obtain ⟨hen, hge⟩ := hb
  simp [IncreaseWindow, hen, hge, h1, h2, Spec.delayGradientEwma, Spec.minDelayForCycle]

/-- The result of `IncreaseWindow` at a cycle boundary when the last sample is between the
thresholds and the normalised gradient is not positive. -/
theorem IncreaseWindow_improving (res : Resolution)
    (newReno : TcpSocketState → Nat → TcpSocketState) (s : TcpTimely) (tcb : TcpSocketState)
    (n : Nat) (hb : cycleBoundary s tcb) (h1 : ¬ (s.new_rtt : ℚ) < s.m_tlow)
    (h2 : ¬ (s.new_rtt : ℚ) > s.m_thigh) (h3 : Spec.normalizedGradient res s ≤ 0) :
    IncreaseWindow res newReno s tcb n =
      ({ s with
          m_begSndNxt := tcb.m_nextTxSequence
          m_prevRtt := Time.ofTicks s.new_rtt
          m_rttDiff := Spec.delayGradientEwma res s
          m_compEvents := if s.m_compEvents + 1 ≥ 5 then 0 else s.m_compEvents + 1
          m_rate := s.m_rate + (if s.m_compEvents + 1 ≥ 5 then 5 else 1) * s.m_delta
          m_baseRtt := min s.m_baseRtt (Time.ofTicks s.new_rtt) },
       { tcb with
          m_cWnd := toUint32 ((s.m_rate + (if s.m_compEvents + 1 ≥ 5 then 5 else 1) * s.m_delta)
            * Spec.minDelayForCycle res s) }) := by
  obtain ⟨hen, hge⟩ := hb
  have h3' := h3
  simp only [Spec.normalizedGradient, Spec.delayGradientEwma, Spec.minDelayForCycle] at h3'
  simp [IncreaseWindow, hen, hge, h1, h2, h3', Spec.delayGradientEwma, Spec.minDelayForCycle]

/-- The result of `IncreaseWindow` at a cycle boundary when the last sample is between the
thresholds and the normalised gradient is positive. -/
theorem IncreaseWindow_worsening (res : Resolution)
    (newReno : TcpSocketState → Nat → TcpSocketState) (s : TcpTimely) (tcb : TcpSocketState)
    (n : Nat) (hb : cycleBoundary s tcb) (h1 : ¬ (s.new_rtt : ℚ) < s.m_tlow)
    (h2 : ¬ (s.new_rtt : ℚ) > s.m_thigh) (h3 : ¬ Spec.normalizedGradient res s ≤ 0) :
    IncreaseWindow res newReno s tcb n =
      ({ s with
          m_begSndNxt := tcb.m_nextTxSequence
          m_prevRtt := Time.ofTicks s.new_rtt
          m_rttDiff := Spec.delayGradientEwma res s
          m_compEvents := 0
          m_rate := s.m_rate * (1 - s.m_beta * Spec.normalizedGradient res s)
          m_baseRtt := min s.m_baseRtt (Time.ofTicks s.new_rtt) },
       { tcb with
          m_cWnd := toUint32 (s.m_rate * (1 - s.m_beta * Spec.normalizedGradient res s)
            * Spec.minDelayForCycle res s) }) := by
  obtain ⟨hen, hge⟩ := hb
  have h3' := h3
  simp only [Spec.normalizedGradient, Spec.delayGradientEwma, Spec.minDelayForCycle] at h3'
  simp [IncreaseWindow, hen, hge, h1, h2, h3', Spec.delayGradientEwma, Spec.minDelayForCycle,
    Spec.normalizedGradient]

/-! ## The regions of a cycle (C1) -/

/-- A last sample below `tLow` puts the cycle in the too-low region. -/
theorem regionOf_tooLow (res : Resolution) (s : TcpTimely) (h : (s.new_rtt : ℚ) < s.m_tlow) :
    Spec.regionOf res s = Spec.Region.tooLow := by
  simp [Spec.regionOf, h]

/-- A last sample not below `tLow` and above `tHigh` puts the cycle in the too-high region. -/
theorem regionOf_tooHigh (res : Resolution) (s : TcpTimely) (h1 : ¬ (s.new_rtt : ℚ) < s.m_tlow)
    (h2 : (s.new_rtt : ℚ) > s.m_thigh) : Spec.regionOf res s = Spec.Region.tooHigh := by
  simp [Spec.regionOf, h1, h2]

/-- Between the thresholds, a normalised gradient that is not positive puts the cycle in the
improving region. -/
theorem regionOf_improving (res : Resolution) (s : TcpTimely)
    (h1 : ¬ (s.new_rtt : ℚ) < s.m_tlow) (h2 : ¬ (s.new_rtt : ℚ) > s.m_thigh)
    (h3 : Spec.normalizedGradient res s ≤ 0) :
    Spec.regionOf res s = Spec.Region.improving := by
  simp [Spec.regionOf, h1, h2, h3]

/-- Between the thresholds, a positive normalised gradient puts the cycle in the worsening
region. -/
theorem regionOf_worsening (res : Resolution) (s : TcpTimely)
    (h1 : ¬ (s.new_rtt : ℚ) < s.m_tlow) (h2 : ¬ (s.new_rtt : ℚ) > s.m_thigh)
    (h3 : ¬ Spec.normalizedGradient res s ≤ 0) :
    Spec.regionOf res s = Spec.Region.worsening := by
  simp [Spec.regionOf, h1, h2, h3]

/-- The improving region, spelled out. -/
theorem regionOf_improving_iff (res : Resolution) (s : TcpTimely) :
    Spec.regionOf res s = Spec.Region.improving ↔
      ¬ (s.new_rtt : ℚ) < s.m_tlow ∧ ¬ (s.new_rtt : ℚ) > s.m_thigh ∧
        Spec.normalizedGradient res s ≤ 0 := by
  unfold Spec.regionOf
  split_ifs <;> simp [*]

/-- C1: at a cycle boundary (controller on, highest acknowledged sequence number at or past
the cycle start) `IncreaseWindow` applies the rate update of exactly one region, the first
whose condition holds in the order too low, too high, improving, worsening, and afterwards
the count of consecutive improvements is zero unless the region is the improving one and the
incremented count is below 5, in which case it is the old count plus one. -/
theorem C1_one_region_per_cycle (res : Resolution)
    (newReno : TcpSocketState → Nat → TcpSocketState) (s : TcpTimely) (tcb : TcpSocketState)
    (n : Nat) (hb : cycleBoundary s tcb) (_hmin : Spec.minDelayForCycle res s ≠ 0) :
    (IncreaseWindow res newReno s tcb n).1.m_rate
        = Spec.rateUpdate res s (Spec.regionOf res s) ∧
      (IncreaseWindow res newReno s tcb n).1.m_compEvents
        = Spec.consecutiveImprovementsAfter s (Spec.regionOf res s) := by
  by_cases h1 : (s.new_rtt : ℚ) < s.m_tlow
  · rw [IncreaseWindow_tooLow res newReno s tcb n hb h1, regionOf_tooLow res s h1]
    simp [Spec.rateUpdate, Spec.consecutiveImprovementsAfter]
  · by_cases h2 : (s.new_rtt : ℚ) > s.m_thigh
    · rw [IncreaseWindow_tooHigh res newReno s tcb n hb h1 h2, regionOf_tooHigh res s h1 h2]
      simp [Spec.rateUpdate, Spec.consecutiveImprovementsAfter]
    · by_cases h3 : Spec.normalizedGradient res s ≤ 0
      · rw [IncreaseWindow_improving res newReno s tcb n hb h1 h2 h3,
          regionOf_improving res s h1 h2 h3]
        by_cases h4 : s.m_compEvents + 1 < 5
        · have h4' : ¬ (s.m_compEvents + 1 ≥ 5) := by omega
          simp [Spec.rateUpdate, Spec.consecutiveImprovementsAfter, h4, h4']
        · have h4' : s.m_compEvents + 1 ≥ 5 := by omega
          simp [Spec.rateUpdate, Spec.consecutiveImprovementsAfter, h4, h4']
      · rw [IncreaseWindow_worsening res newReno s tcb n hb h1 h2 h3,
          regionOf_worsening res s h1 h2 h3]
        simp [Spec.rateUpdate, Spec.consecutiveImprovementsAfter]

/-- The normalising delay of the example state is 2000 microseconds at nanosecond resolution. -/
theorem exampleState_minDelay : Spec.minDelayForCycle Resolution.NS exampleState = 2000 := by
  have h : Int.tdiv 2000000 1000 = 2000 := by decide
  simp [Spec.minDelayForCycle, exampleState, Time.GetMicroSeconds, Time.ofTicks,
    Resolution.ticksPerUs, h]

/-- C1 at the example state: a sample of 1500 microseconds is below `tLow`. -/
theorem C1_one_region_per_cycle_witness :
    (cycleBoundary exampleState exampleTcb ∧
      Spec.minDelayForCycle Resolution.NS exampleState ≠ 0) ∧
    ((IncreaseWindow Resolution.NS exampleNewReno exampleState exampleTcb 1).1.m_rate
        = Spec.rateUpdate Resolution.NS exampleState
            (Spec.regionOf Resolution.NS exampleState) ∧
      (IncreaseWindow Resolution.NS exampleNewReno exampleState exampleTcb 1).1.m_compEvents
        = Spec.consecutiveImprovementsAfter exampleState
            (Spec.regionOf Resolution.NS exampleState)) :=
  ⟨⟨by decide, by rw [exampleState_minDelay]; norm_num⟩,
   C1_one_region_per_cycle Resolution.NS exampleNewReno exampleState exampleTcb 1 (by decide)
     (by rw [exampleState_minDelay]; norm_num)⟩

/-! ## Five improving cycles in a row (C2) -/

/-- A call that closes no cycle leaves the rate, the count of consecutive improvements and
the additive step as they are. -/
theorem step_closesNoCycle (res : Resolution)
    (newReno : TcpSocketState → Nat → TcpSocketState) (s : TcpTimely) (c : Call)
    (h : closesNoCycle s c) :
    (step res newReno s c).m_rate = s.m_rate ∧
      (step res newReno s c).m_compEvents = s.m_compEvents ∧
      (step res newReno s c).m_delta = s.m_delta := by
  cases c with
  | pktsAcked rtt =>
    simp only [step, PktsAcked]
    split <;> simp
  | congestionStateSet tcb newState =>
    simp only [step, CongestionStateSet, EnableTimely, DisableTimely]
    split <;> simp
  | increaseWindow tcb n =>
    simp only [step]
    rw [IncreaseWindow_not_boundary res newReno s tcb n h]
    simp

/-- A sequence of calls none of which closes a cycle leaves the rate, the count of
consecutive improvements and the additive step as they are. -/
theorem run_quiet (res : Resolution) (newReno : TcpSocketState → Nat → TcpSocketState)
    (cs : List Call) :
    ∀ s : TcpTimely, quiet res newReno s cs →
      (run res newReno s cs).m_rate = s.m_rate ∧
        (run res newReno s cs).m_compEvents = s.m_compEvents ∧
        (run res newReno s cs).m_delta = s.m_delta := by
  induction cs with
  | nil => intro s _; simp [run]
  | cons c cs ih =>
    intro s hq
    obtain ⟨hc, hrest⟩ := hq
    obtain ⟨h1, h2, h3⟩ := step_closesNoCycle res newReno s c hc
    obtain ⟨i1, i2, i3⟩ := ih (step res newReno s c) hrest
    have hrun : run res newReno s (c :: cs) = run res newReno (step res newReno s c) cs := by
      simp [run]
    rw [hrun]
    exact ⟨i1.trans h1, i2.trans h2, i3.trans h3⟩

/-- An improving cycle adds one additive step to the rate and counts one more improvement,
or, when the incremented count reaches 5, adds five steps and resets the count. -/
theorem closeCycle_improving (res : Resolution)
    (newReno : TcpSocketState → Nat → TcpSocketState) (s : TcpTimely) (c : Cycle)
    (h : improvingCycle res newReno s c) :
    (closeCycle res newReno s c).m_rate
        = s.m_rate + (if s.m_compEvents + 1 ≥ 5 then 5 else 1) * s.m_delta ∧
      (closeCycle res newReno s c).m_compEvents
        = (if s.m_compEvents + 1 ≥ 5 then 0 else s.m_compEvents + 1) ∧
      (closeCycle res newReno s c).m_delta = s.m_delta := by
  obtain ⟨hq, hb, hr, _⟩ := h
  obtain ⟨q1, q2, q3⟩ := run_quiet res newReno c.before s hq
  obtain ⟨h1, h2, h3⟩ := (regionOf_improving_iff res _).mp hr
  unfold closeCycle
  rw [IncreaseWindow_improving res newReno _ c.tcb c.segmentsAcked hb h1 h2 h3]
  simp only [q1, q2, q3]
  exact ⟨trivial, trivial, trivial⟩

/-- C2: starting with a count of zero consecutive improvements, when five cycles in a row end
in the improving region (other calls that close no cycle may come in between), each of the
first four adds exactly `delta` to the rate, the fifth adds exactly `5 × delta` to the rate it
started with, and the count of consecutive improvements is zero right after the fifth. -/
theorem C2_fifth_improving_cycle_adds_five_steps (res : Resolution)
    (newReno : TcpSocketState → Nat → TcpSocketState) (s0 : TcpTimely)
    (c1 c2 c3 c4 c5 : Cycle)
    (h0 : s0.m_compEvents = 0)
    (h1 : improvingCycle res newReno s0 c1)
    (h2 : improvingCycle res newReno (closeCycle res newReno s0 c1) c2)
    (h3 : improvingCycle res newReno
      (closeCycle res newReno (closeCycle res newReno s0 c1) c2) c3)
    (h4 : improvingCycle res newReno
      (closeCycle res newReno (closeCycle res newReno (closeCycle res newReno s0 c1) c2) c3) c4)
    (h5 : improvingCycle res newReno
      (closeCycle res newReno (closeCycle res newReno
        (closeCycle res newReno (closeCycle res newReno s0 c1) c2) c3) c4) c5) :
    let s1 := closeCycle res newReno s0 c1
    let s2 := closeCycle res newReno s1 c2
    let s3 := closeCycle res newReno s2 c3
    let s4 := closeCycle res newReno s3 c4
    let s5 := closeCycle res newReno s4 c5
    s1.m_rate = s0.m_rate + s0.m_delta ∧
      s2.m_rate = s1.m_rate + s0.m_delta ∧
      s3.m_rate = s2.m_rate + s0.m_delta ∧
      s4.m_rate = s3.m_rate + s0.m_delta ∧
      s5.m_rate = s4.m_rate + 5 * s0.m_delta ∧
      s5.m_compEvents = 0 := by
  intro s1 s2 s3 s4 s5
  obtain ⟨r1, e1, d1⟩ := closeCycle_improving res newReno s0 c1 h1
  obtain ⟨r2, e2, d2⟩ := closeCycle_improving res newReno s1 c2 h2
  obtain ⟨r3, e3, d3⟩ := closeCycle_improving res newReno s2 c3 h3
  obtain ⟨r4, e4, d4⟩ := closeCycle_improving res newReno s3 c4 h4
  obtain ⟨r5, e5, d5⟩ := closeCycle_improving res newReno s4 c5 h5
  have k1 : s1.m_compEvents = 1 := by rw [e1, h0]; rfl
  have k2 : s2.m_compEvents = 2 := by rw [e2, k1]; rfl
  have k3 : s3.m_compEvents = 3 := by rw [e3, k2]; rfl
  have k4 : s4.m_compEvents = 4 := by rw [e4, k3]; rfl
  have g1 : s1.m_delta = s0.m_delta := d1
  have g2 : s2.m_delta = s0.m_delta := d2.trans g1
  have g3 : s3.m_delta = s0.m_delta := d3.trans g2
  have g4 : s4.m_delta = s0.m_delta := d4.trans g3
  refine ⟨?_, ?_, ?_, ?_, ?_, ?_⟩
  · rw [r1, h0]; norm_num
  · rw [r2, k1, g1]; norm_num
  · rw [r3, k2, g2]; norm_num
  · rw [r4, k3, g3]; norm_num
  · rw [r5, k4, g4]; norm_num
  · rw [e5, k4]; rfl

/-- 3000000 nanoseconds are 3000 microseconds. -/
theorem tdiv_3000000 : Int.tdiv 3000000 1000 = 3000 := by decide

/-- 3000 nanoseconds are 3 microseconds. -/
theorem tdiv_3000 : Int.tdiv 3000 1000 = 3 := by decide

/-- 1500 nanoseconds are 1 microsecond, the remainder dropped. -/
theorem tdiv_1500 : Int.tdiv 1500 1000 = 1 := by decide

/-- 2000000 nanoseconds are 2000 microseconds. -/
theorem tdiv_2000000 : Int.tdiv 2000000 1000 = 2000 := by decide

/-- The example run after one cycle. -/
theorem improvingRun_one : improvingRun 1 =
    { exampleState with
      m_baseRtt := 3000, m_cntRtt := 2, m_begSndNxt := 200, m_prevRtt := 3000,
      m_rttDiff := -8997001 / 10, m_rate := 11, m_compEvents := 1, new_rtt := 3000 } := by
  show closeCycle Resolution.NS exampleNewReno improvingState (improvingCycleAt 1) = _
  simp [closeCycle, run, step, PktsAcked, IncreaseWindow, improvingState, improvingCycleAt,
    exampleState, exampleTcb, seqGe, seqGt, Time.IsZero, Time.GetMicroSeconds,
    Resolution.ticksPerUs, Time.ofTicks, tdiv_3000000, tdiv_3000, tdiv_1500, tdiv_2000000]
  norm_num

/-- The example run after two cycles. -/
theorem improvingRun_two : improvingRun 2 =
    { exampleState with
      m_baseRtt := 3000, m_cntRtt := 3, m_begSndNxt := 300, m_prevRtt := 3000,
      m_rttDiff := -80943039 / 100, m_rate := 12, m_compEvents := 2, new_rtt := 3000 } := by
  show closeCycle Resolution.NS exampleNewReno (improvingRun 1) (improvingCycleAt 2) = _
  rw [improvingRun_one]
  simp [closeCycle, run, step, PktsAcked, IncreaseWindow, improvingCycleAt,
    exampleState, exampleTcb, seqGe, seqGt, Time.IsZero, Time.GetMicroSeconds,
    Resolution.ticksPerUs, Time.ofTicks, tdiv_3000000, tdiv_3000, tdiv_2000000]
  norm_num

/-- The example run after three cycles. -/
theorem improvingRun_three : improvingRun 3 =
    { exampleState with
      m_baseRtt := 3000, m_cntRtt := 4, m_begSndNxt := 400, m_prevRtt := 3000,
      m_rttDiff := -728187651 / 1000, m_rate := 13, m_compEvents := 3, new_rtt := 3000 } := by
  show closeCycle Resolution.NS exampleNewReno (improvingRun 2) (improvingCycleAt 3) = _
  rw [improvingRun_two]
  simp [closeCycle, run, step, PktsAcked, IncreaseWindow, improvingCycleAt,
    exampleState, exampleTcb, seqGe, seqGt, Time.IsZero, Time.GetMicroSeconds,
    Resolution.ticksPerUs, Time.ofTicks, tdiv_3000000, tdiv_3000, tdiv_2000000]
  norm_num

/-- The example run after four cycles. -/
theorem improvingRun_four : improvingRun 4 =
    { exampleState with
      m_baseRtt := 3000, m_cntRtt := 5, m_begSndNxt := 500, m_prevRtt := 3000,
      m_rttDiff := -6550691859 / 10000, m_rate := 14, m_compEvents := 4, new_rtt := 3000 } := by
  show closeCycle Resolution.NS exampleNewReno (improvingRun 3) (improvingCycleAt 4) = _
  rw [improvingRun_three]
  simp [closeCycle, run, step, PktsAcked, IncreaseWindow, improvingCycleAt,
    exampleState, exampleTcb, seqGe, seqGt, Time.IsZero, Time.GetMicroSeconds,
    Resolution.ticksPerUs, Time.ofTicks, tdiv_3000000, tdiv_3000, tdiv_2000000]
  norm_num

/-- The first cycle of the example run ends in the improving region. -/
theorem improvingRun_improving_zero :
    improvingCycle Resolution.NS exampleNewReno (improvingRun 0) (improvingCycleAt 1) := by
  show improvingCycle Resolution.NS exampleNewReno improvingState (improvingCycleAt 1)
  simp [improvingCycle, quiet, closesNoCycle, run, step, PktsAcked, improvingState,
    improvingCycleAt, exampleState, exampleTcb, cycleBoundary, seqGe, seqGt, Time.IsZero,
    Time.GetMicroSeconds, Resolution.ticksPerUs, Time.ofTicks, Spec.regionOf,
    Spec.normalizedGradient, Spec.delayGradientEwma, Spec.minDelayForCycle,
    tdiv_3000000, tdiv_1500, tdiv_2000000]
  norm_num

/-- The second cycle of the example run ends in the improving region. -/
theorem improvingRun_improving_one :
    improvingCycle Resolution.NS exampleNewReno (improvingRun 1) (improvingCycleAt 2) := by
  rw [improvingRun_one]
  simp [improvingCycle, quiet, closesNoCycle, run, step, PktsAcked,
    improvingCycleAt, exampleState, exampleTcb, cycleBoundary, seqGe, seqGt, Time.IsZero,
    Time.GetMicroSeconds, Resolution.ticksPerUs, Time.ofTicks, Spec.regionOf,
    Spec.normalizedGradient, Spec.delayGradientEwma, Spec.minDelayForCycle,
    tdiv_3000000, tdiv_3000, tdiv_2000000]
  norm_num

/-- The third cycle of the example run ends in the improving region. -/
theorem improvingRun_improving_two :
    improvingCycle Resolution.NS exampleNewReno (improvingRun 2) (improvingCycleAt 3) := by
  rw [improvingRun_two]
  simp [improvingCycle, quiet, closesNoCycle, run, step, PktsAcked,
    improvingCycleAt, exampleState, exampleTcb, cycleBoundary, seqGe, seqGt, Time.IsZero,
    Time.GetMicroSeconds, Resolution.ticksPerUs, Time.ofTicks, Spec.regionOf,
    Spec.normalizedGradient, Spec.delayGradientEwma, Spec.minDelayForCycle,
    tdiv_3000000, tdiv_3000, tdiv_2000000]
  norm_num

/-- The fourth cycle of the example run ends in the improving region. -/
theorem improvingRun_improving_three :
    improvingCycle Resolution.NS exampleNewReno (improvingRun 3) (improvingCycleAt 4) := by
  rw [improvingRun_three]
  simp [improvingCycle, quiet, closesNoCycle, run, step, PktsAcked,
    improvingCycleAt, exampleState, exampleTcb, cycleBoundary, seqGe, seqGt, Time.IsZero,
    Time.GetMicroSeconds, Resolution.ticksPerUs, Time.ofTicks, Spec.regionOf,
    Spec.normalizedGradient, Spec.delayGradientEwma, Spec.minDelayForCycle,
    tdiv_3000000, tdiv_3000, tdiv_2000000]
  norm_num

/-- The fifth cycle of the example run ends in the improving region. -/
theorem improvingRun_improving_four :
    improvingCycle Resolution.NS exampleNewReno (improvingRun 4) (improvingCycleAt 5) := by
  rw [improvingRun_four]
  simp [improvingCycle, quiet, closesNoCycle, run, step, PktsAcked,
    improvingCycleAt, exampleState, exampleTcb, cycleBoundary, seqGe, seqGt, Time.IsZero,
    Time.GetMicroSeconds, Resolution.ticksPerUs, Time.ofTicks, Spec.regionOf,
    Spec.normalizedGradient, Spec.delayGradientEwma, Spec.minDelayForCycle,
    tdiv_3000000, tdiv_3000, tdiv_2000000]
  norm_num

/-- C2 on the example: five cycles, each closed with a sample of 3000 microseconds, starting
from rate 10 with a strongly negative smoothed gradient. -/
theorem C2_fifth_improving_cycle_adds_five_steps_witness :
    (improvingState.m_compEvents = 0 ∧
      improvingCycle Resolution.NS exampleNewReno (improvingRun 0) (improvingCycleAt 1) ∧
      improvingCycle Resolution.NS exampleNewReno (improvingRun 1) (improvingCycleAt 2) ∧
      improvingCycle Resolution.NS exampleNewReno (improvingRun 2) (improvingCycleAt 3) ∧
      improvingCycle Resolution.NS exampleNewReno (improvingRun 3) (improvingCycleAt 4) ∧
      improvingCycle Resolution.NS exampleNewReno (improvingRun 4) (improvingCycleAt 5)) ∧
    ((improvingRun 1).m_rate = (improvingRun 0).m_rate + improvingState.m_delta ∧
      (improvingRun 2).m_rate = (improvingRun 1).m_rate + improvingState.m_delta ∧
      (improvingRun 3).m_rate = (improvingRun 2).m_rate + improvingState.m_delta ∧
      (improvingRun 4).m_rate = (improvingRun 3).m_rate + improvingState.m_delta ∧
      (improvingRun 5).m_rate = (improvingRun 4).m_rate + 5 * improvingState.m_delta ∧
      (improvingRun 5).m_compEvents = 0) :=
  ⟨⟨rfl, improvingRun_improving_zero, improvingRun_improving_one, improvingRun_improving_two,
      improvingRun_improving_three, improvingRun_improving_four⟩,
    C2_fifth_improving_cycle_adds_five_steps Resolution.NS exampleNewReno improvingState
      (improvingCycleAt 1) (improvingCycleAt 2) (improvingCycleAt 3) (improvingCycleAt 4)
      (improvingCycleAt 5) rfl improvingRun_improving_zero improvingRun_improving_one
      improvingRun_improving_two improvingRun_improving_three improvingRun_improving_four⟩

/-! ## The too-low and too-high regions (C3, C4) -/

/-- The window conversion of an integer value in the 32-bit range is that value. -/
theorem toUint32_intCast (k : Int) (h0 : 0 ≤ k) (h1 : k < 2 ^ 32) :
    toUint32 (k : ℚ) = k.toNat := by
  unfold toUint32
  have hnum : ((k : ℚ)).num = k := Rat.num_intCast k
  have hden : (((k : ℚ)).den : Int) = 1 := by simp
  rw [hnum, hden, Int.tdiv_one]
  congr 1
  exact Int.emod_eq_of_lt h0 h1

/-- The window derived from rate 11 and a normalising delay of 2000 microseconds. -/
theorem toUint32_22000 : toUint32 ((10 + 1) * ((2000 : Int) : ℚ)) = 22000 := by
  have h : ((10 : ℚ) + 1) * ((2000 : Int) : ℚ) = ((22000 : Int) : ℚ) := by norm_num
  rw [h, toUint32_intCast 22000 (by decide) (by decide)]
  rfl

/-- The window derived from rate 11 and a normalising delay of 2000000 microseconds. -/
theorem toUint32_22000000 : toUint32 ((10 + 1) * ((2000000 : Int) : ℚ)) = 22000000 := by
  have h : ((10 : ℚ) + 1) * ((2000000 : Int) : ℚ) = ((22000000 : Int) : ℚ) := by norm_num
  rw [h, toUint32_intCast 22000000 (by decide) (by decide)]
  rfl

/-- C3, as amended: at a cycle boundary with the last sample below `tLow`, `IncreaseWindow`
sets the rate to `rate + delta` and the window to the new rate times the normalising delay
in microseconds (converted to the 32-bit window), whatever the gradient is.  With rate 10,
`delta` 1 and the normalising delay `Time (2000000)` of a freshly enabled controller, the
new rate is 11 and the window is 22000 at nanosecond resolution (the default), where the
normalising delay is 2000 microseconds; it is 22000000 when a tick is a microsecond. -/
theorem C3_too_low_region (res : Resolution)
    (newReno : TcpSocketState → Nat → TcpSocketState) (s : TcpTimely) (tcb : TcpSocketState)
    (n : Nat) (hb : cycleBoundary s tcb) (hlow : (s.new_rtt : ℚ) < s.m_tlow) :
    (IncreaseWindow res newReno s tcb n).1.m_rate = s.m_rate + s.m_delta ∧
      (IncreaseWindow res newReno s tcb n).2.m_cWnd
        = toUint32 ((IncreaseWindow res newReno s tcb n).1.m_rate
            * ((s.m_minRtt.GetMicroSeconds res : Int) : ℚ)) ∧
      (s.m_rate = 10 ∧ s.m_delta = 1 ∧ s.m_minRtt = Time.ofTicks 2000000 →
        (IncreaseWindow res newReno s tcb n).1.m_rate = 11 ∧
          (res = Resolution.NS → (IncreaseWindow res newReno s tcb n).2.m_cWnd = 22000) ∧
          (res = Resolution.US → (IncreaseWindow res newReno s tcb n).2.m_cWnd = 22000000)) := by
  rw [IncreaseWindow_tooLow res newReno s tcb n hb hlow]
  refine ⟨rfl, rfl, ?_⟩
  rintro ⟨hr, hd, hm⟩
  refine ⟨?_, ?_, ?_⟩
  · simp only [hr, hd]; norm_num
  · intro hres
    subst hres
    simp only [hr, hd, hm, Spec.minDelayForCycle, Time.GetMicroSeconds, Time.ofTicks,
      Resolution.ticksPerUs, tdiv_2000000]
    exact toUint32_22000
  · intro hres
    subst hres
    simp only [hr, hd, hm, Spec.minDelayForCycle, Time.GetMicroSeconds, Time.ofTicks,
      Resolution.ticksPerUs, Int.tdiv_one]
    exact toUint32_22000000

/-- The freshly enabled controller, member by member. -/
theorem freshlyEnabled_eq : freshlyEnabled =
    { TcpTimely.init 238328 10 0 0 with
      m_begSndNxt := 200, m_minRtt := 2000000, m_cntRtt := 1, m_baseRtt := 1500000,
      new_rtt := 1500 } := by
  have h : Int.tdiv 1500000 1000 = 1500 := by decide
  have h2 : min Time.Max 1500000 = 1500000 := by decide
  simp [freshlyEnabled, PktsAcked, EnableTimely, init, exampleTcb, Time.IsZero,
    Time.GetMicroSeconds, Resolution.ticksPerUs, Time.ofTicks, h, h2]

/-- The freshly enabled controller is at a cycle boundary once sequence number 200 is
acknowledged. -/
theorem freshlyEnabled_boundary : cycleBoundary freshlyEnabled exampleTcb200 := by
  rw [freshlyEnabled_eq]; decide

/-- The sample of the freshly enabled controller, 1500 microseconds, is below `tLow`. -/
theorem freshlyEnabled_tooLow : (freshlyEnabled.new_rtt : ℚ) < freshlyEnabled.m_tlow := by
  rw [freshlyEnabled_eq]; norm_num [init]

/-- C3 on a freshly enabled controller at nanosecond resolution. -/
theorem C3_too_low_region_witness :
    (cycleBoundary freshlyEnabled exampleTcb200 ∧
      (freshlyEnabled.new_rtt : ℚ) < freshlyEnabled.m_tlow) ∧
    ((IncreaseWindow Resolution.NS exampleNewReno freshlyEnabled exampleTcb200 1).1.m_rate
        = freshlyEnabled.m_rate + freshlyEnabled.m_delta ∧
      (IncreaseWindow Resolution.NS exampleNewReno freshlyEnabled exampleTcb200 1).2.m_cWnd
        = toUint32
            ((IncreaseWindow Resolution.NS exampleNewReno freshlyEnabled exampleTcb200 1).1.m_rate
              * ((freshlyEnabled.m_minRtt.GetMicroSeconds Resolution.NS : Int) : ℚ)) ∧
      (freshlyEnabled.m_rate = 10 ∧ freshlyEnabled.m_delta = 1 ∧
          freshlyEnabled.m_minRtt = Time.ofTicks 2000000 →
        (IncreaseWindow Resolution.NS exampleNewReno freshlyEnabled exampleTcb200 1).1.m_rate
            = 11 ∧
          (Resolution.NS = Resolution.NS →
            (IncreaseWindow Resolution.NS exampleNewReno freshlyEnabled exampleTcb200 1).2.m_cWnd
              = 22000) ∧
          (Resolution.NS = Resolution.US →
            (IncreaseWindow Resolution.NS exampleNewReno freshlyEnabled exampleTcb200 1).2.m_cWnd
              = 22000000))) :=
  ⟨⟨freshlyEnabled_boundary, freshlyEnabled_tooLow⟩,
    C3_too_low_region Resolution.NS exampleNewReno freshlyEnabled exampleTcb200 1
      freshlyEnabled_boundary freshlyEnabled_tooLow⟩

/-- C3 as stated fails at the default resolution: a freshly enabled controller with rate 10
and the default configuration, closing a cycle on a sample of 1500 microseconds, ends with
rate 11 and a window of 22000, not 22000000. -/
theorem C3_window_22000000_counterexample :
    cycleBoundary freshlyEnabled exampleTcb200 ∧
      freshlyEnabled.m_minRtt = Time.ofTicks 2000000 ∧
      freshlyEnabled.m_rate = 10 ∧
      freshlyEnabled.new_rtt = 1500 ∧
      (IncreaseWindow Resolution.NS exampleNewReno freshlyEnabled exampleTcb200 1).1.m_rate
        = 11 ∧
      (IncreaseWindow Resolution.NS exampleNewReno freshlyEnabled exampleTcb200 1).2.m_cWnd
        = 22000 ∧
      (IncreaseWindow Resolution.NS exampleNewReno freshlyEnabled exampleTcb200 1).2.m_cWnd
        ≠ 22000000 := by
  have hfix : freshlyEnabled.m_rate = 10 ∧ freshlyEnabled.m_delta = 1 ∧
      freshlyEnabled.m_minRtt = Time.ofTicks 2000000 := by
    rw [freshlyEnabled_eq]; simp [init, Time.ofTicks]
  have hnew : freshlyEnabled.new_rtt = 1500 := by rw [freshlyEnabled_eq]
  have hlow : (freshlyEnabled.new_rtt : ℚ) < freshlyEnabled.m_tlow := freshlyEnabled_tooLow
  have hb := freshlyEnabled_boundary
  rw [IncreaseWindow_tooLow Resolution.NS exampleNewReno freshlyEnabled exampleTcb200 1 hb hlow]
  obtain ⟨hr, hd, hm⟩ := hfix
  have hw : toUint32 ((freshlyEnabled.m_rate + freshlyEnabled.m_delta)
      * Spec.minDelayForCycle Resolution.NS freshlyEnabled) = 22000 := by
    simp only [hr, hd, hm, Spec.minDelayForCycle, Time.GetMicroSeconds, Time.ofTicks,
      Resolution.ticksPerUs, tdiv_2000000]
    exact toUint32_22000
  refine ⟨hb, hm, hr, hnew, ?_, hw, ?_⟩
  · simp only [hr, hd]; norm_num
  · simp only [hw]; decide

/-- C4: at a cycle boundary with the last sample at least `tLow` and above `tHigh`,
`IncreaseWindow` sets the rate to `rate × (1 − beta × (1 − tHigh / newDelay))` and the window
to the new rate times the normalising delay (converted to the 32-bit window); with
`tHigh = 50000`, `beta = 0.8`, rate 10 and a sample of 60000 the new rate is `26 / 3`. -/
theorem C4_too_high_region (res : Resolution)
    (newReno : TcpSocketState → Nat → TcpSocketState) (s : TcpTimely) (tcb : TcpSocketState)
    (n : Nat) (hb : cycleBoundary s tcb) (hlow : ¬ (s.new_rtt : ℚ) < s.m_tlow)
    (hhigh : (s.new_rtt : ℚ) > s.m_thigh) :
    (IncreaseWindow res newReno s tcb n).1.m_rate
        = s.m_rate * (1 - s.m_beta * (1 - s.m_thigh / (s.new_rtt : ℚ))) ∧
      (IncreaseWindow res newReno s tcb n).2.m_cWnd
        = toUint32 ((IncreaseWindow res newReno s tcb n).1.m_rate
            * Spec.minDelayForCycle res s) ∧
      (s.m_thigh = 50000 ∧ s.m_beta = 8 / 10 ∧ s.m_rate = 10 ∧ s.new_rtt = 60000 →
        (IncreaseWindow res newReno s tcb n).1.m_rate = 26 / 3) := by
  rw [IncreaseWindow_tooHigh res newReno s tcb n hb hlow hhigh]
  refine ⟨rfl, rfl, ?_⟩
  rintro ⟨ht, hbeta, hr, hnew⟩
  simp only [ht, hbeta, hr, hnew]
  norm_num

/-- C4 on the example state with a sample of 60000 microseconds. -/
theorem C4_too_high_region_witness :
    (cycleBoundary tooHighState exampleTcb ∧
      ¬ (tooHighState.new_rtt : ℚ) < tooHighState.m_tlow ∧
      (tooHighState.new_rtt : ℚ) > tooHighState.m_thigh) ∧
    ((IncreaseWindow Resolution.NS exampleNewReno tooHighState exampleTcb 1).1.m_rate
        = tooHighState.m_rate
            * (1 - tooHighState.m_beta
                * (1 - tooHighState.m_thigh / (tooHighState.new_rtt : ℚ))) ∧
      (IncreaseWindow Resolution.NS exampleNewReno tooHighState exampleTcb 1).2.m_cWnd
        = toUint32 ((IncreaseWindow Resolution.NS exampleNewReno tooHighState exampleTcb 1).1.m_rate
            * Spec.minDelayForCycle Resolution.NS tooHighState) ∧
      (tooHighState.m_thigh = 50000 ∧ tooHighState.m_beta = 8 / 10 ∧ tooHighState.m_rate = 10 ∧
          tooHighState.new_rtt = 60000 →
        (IncreaseWindow Resolution.NS exampleNewReno tooHighState exampleTcb 1).1.m_rate
          = 26 / 3)) :=
  ⟨⟨by decide, by norm_num [tooHighState, exampleState],
      by norm_num [tooHighState, exampleState]⟩,
    C4_too_high_region Resolution.NS exampleNewReno tooHighState exampleTcb 1 (by decide)
      (by norm_num [tooHighState, exampleState]) (by norm_num [tooHighState, exampleState])⟩

/-! ## The sign of the rate (C5) -/

/-- The factor of the too-high decrease lies strictly between `1 − beta` and 1. -/
theorem tooHigh_factor_bounds (beta thigh newDelay : ℚ) (hb0 : 0 < beta)
    (ht : 0 < thigh) (hn : thigh < newDelay) :
    1 - beta < 1 - beta * (1 - thigh / newDelay) ∧ 1 - beta * (1 - thigh / newDelay) < 1 := by
  have hn0 : 0 < newDelay := lt_trans ht hn
  have hx0 : 0 < thigh / newDelay := div_pos ht hn0
  have hx1 : thigh / newDelay < 1 := (div_lt_one hn0).mpr hn
  constructor
  · nlinarith
  · nlinarith

/-- C5, as amended: with `alpha` and `beta` in (0,1), `delta > 0`, `0 < tLow < tHigh`, a
positive normalising delay and a rate that is not negative, the rate after `IncreaseWindow`
is not negative, and neither is the product of rate and normalising delay from which the
window is derived, unless the call closes a cycle in the worsening region with
`beta × normalizedGradient > 1`; in that case a positive rate becomes negative, for the
code has no clamp. -/
theorem C5_rate_sign (res : Resolution)
    (newReno : TcpSocketState → Nat → TcpSocketState) (s : TcpTimely) (tcb : TcpSocketState)
    (n : Nat)
    (_ha : 0 < s.m_alpha ∧ s.m_alpha < 1) (hbeta : 0 < s.m_beta ∧ s.m_beta < 1)
    (hdelta : 0 < s.m_delta) (hthr : 0 < s.m_tlow ∧ s.m_tlow < s.m_thigh)
    (hmin : 0 < Spec.minDelayForCycle res s) (hrate : 0 ≤ s.m_rate) :
    (¬ (cycleBoundary s tcb ∧ Spec.regionOf res s = Spec.Region.worsening ∧
          s.m_beta * Spec.normalizedGradient res s > 1) →
        0 ≤ (IncreaseWindow res newReno s tcb n).1.m_rate ∧
          0 ≤ (IncreaseWindow res newReno s tcb n).1.m_rate * Spec.minDelayForCycle res s) ∧
      (cycleBoundary s tcb ∧ Spec.regionOf res s = Spec.Region.worsening ∧
          s.m_beta * Spec.normalizedGradient res s > 1 → 0 < s.m_rate →
        (IncreaseWindow res newReno s tcb n).1.m_rate < 0) := by
  have key : ∀ r : ℚ, 0 ≤ r → 0 ≤ r ∧ 0 ≤ r * Spec.minDelayForCycle res s :=
    fun r hr => ⟨hr, mul_nonneg hr hmin.le⟩
  constructor
  · intro hnot
    apply key
    by_cases hb : cycleBoundary s tcb
    · by_cases h1 : (s.new_rtt : ℚ) < s.m_tlow
      · rw [IncreaseWindow_tooLow res newReno s tcb n hb h1]
        show 0 ≤ s.m_rate + s.m_delta
        linarith
      · by_cases h2 : (s.new_rtt : ℚ) > s.m_thigh
        · rw [IncreaseWindow_tooHigh res newReno s tcb n hb h1 h2]
          show 0 ≤ s.m_rate * (1 - s.m_beta * (1 - s.m_thigh / (s.new_rtt : ℚ)))
          have hf := tooHigh_factor_bounds s.m_beta s.m_thigh (s.new_rtt : ℚ) hbeta.1
            (lt_trans hthr.1 hthr.2) h2
          exact mul_nonneg hrate (by linarith [hf.1, hbeta.2])
        · by_cases h3 : Spec.normalizedGradient res s ≤ 0
          · rw [IncreaseWindow_improving res newReno s tcb n hb h1 h2 h3]
            show 0 ≤ s.m_rate + (if s.m_compEvents + 1 ≥ 5 then 5 else 1) * s.m_delta
            split_ifs <;> linarith
          · rw [IncreaseWindow_worsening res newReno s tcb n hb h1 h2 h3]
            show 0 ≤ s.m_rate * (1 - s.m_beta * Spec.normalizedGradient res s)
            have hle : s.m_beta * Spec.normalizedGradient res s ≤ 1 := by
              by_contra hgt
              exact hnot ⟨hb, regionOf_worsening res s h1 h2 h3, lt_of_not_ge hgt⟩
            exact mul_nonneg hrate (by linarith)
    · rw [IncreaseWindow_not_boundary res newReno s tcb n hb]
      exact hrate
  · rintro ⟨hb, hreg, hgt⟩ hpos
    have h1 : ¬ (s.new_rtt : ℚ) < s.m_tlow := by
      intro h; rw [regionOf_tooLow res s h] at hreg; cases hreg
    have h2 : ¬ (s.new_rtt : ℚ) > s.m_thigh := by
      intro h; rw [regionOf_tooHigh res s h1 h] at hreg; cases hreg
    have h3 : ¬ Spec.normalizedGradient res s ≤ 0 := by
      intro h; rw [regionOf_improving res s h1 h2 h] at hreg; cases hreg
    rw [IncreaseWindow_worsening res newReno s tcb n hb h1 h2 h3]
    show s.m_rate * (1 - s.m_beta * Spec.normalizedGradient res s) < 0
    exact mul_neg_of_pos_of_neg hpos (by linarith)

/-- The example state has the default configuration, which lies in the ranges the
specification asks for, and a rate that is not negative. -/
theorem exampleState_config :
    (0 < exampleState.m_alpha ∧ exampleState.m_alpha < 1) ∧
      (0 < exampleState.m_beta ∧ exampleState.m_beta < 1) ∧
      0 < exampleState.m_delta ∧
      (0 < exampleState.m_tlow ∧ exampleState.m_tlow < exampleState.m_thigh) ∧
      0 ≤ exampleState.m_rate := by
  norm_num [exampleState]

/-- C5 on the example state, whose last sample is below `tLow`. -/
theorem C5_rate_sign_witness :
    ((0 < exampleState.m_alpha ∧ exampleState.m_alpha < 1) ∧
      (0 < exampleState.m_beta ∧ exampleState.m_beta < 1) ∧
      0 < exampleState.m_delta ∧
      (0 < exampleState.m_tlow ∧ exampleState.m_tlow < exampleState.m_thigh) ∧
      0 < Spec.minDelayForCycle Resolution.NS exampleState ∧
      0 ≤ exampleState.m_rate) ∧
    ((¬ (cycleBoundary exampleState exampleTcb ∧
          Spec.regionOf Resolution.NS exampleState = Spec.Region.worsening ∧
          exampleState.m_beta * Spec.normalizedGradient Resolution.NS exampleState > 1) →
        0 ≤ (IncreaseWindow Resolution.NS exampleNewReno exampleState exampleTcb 1).1.m_rate ∧
          0 ≤ (IncreaseWindow Resolution.NS exampleNewReno exampleState exampleTcb 1).1.m_rate
            * Spec.minDelayForCycle Resolution.NS exampleState) ∧
      (cycleBoundary exampleState exampleTcb ∧
          Spec.regionOf Resolution.NS exampleState = Spec.Region.worsening ∧
          exampleState.m_beta * Spec.normalizedGradient Resolution.NS exampleState > 1 →
        0 < exampleState.m_rate →
        (IncreaseWindow Resolution.NS exampleNewReno exampleState exampleTcb 1).1.m_rate < 0)) :=
  ⟨⟨exampleState_config.1, exampleState_config.2.1, exampleState_config.2.2.1,
      exampleState_config.2.2.2.1, by rw [exampleState_minDelay]; norm_num,
      exampleState_config.2.2.2.2⟩,
    C5_rate_sign Resolution.NS exampleNewReno exampleState exampleTcb 1
      exampleState_config.1 exampleState_config.2.1 exampleState_config.2.2.1
      exampleState_config.2.2.2.1 (by rw [exampleState_minDelay]; norm_num)
      exampleState_config.2.2.2.2⟩

/-- C5 as stated fails: with the default configuration (`alpha = 0.1`, `beta = 0.8`,
`delta = 1`, `tLow = 2000`, `tHigh = 50000`) and rate 10, a cycle closed in the worsening
region with a large smoothed gradient leaves a negative rate, at nanosecond resolution
(rate `-36010`) and also when a tick is a microsecond (rate `-1301 / 50`). -/
theorem C5_rate_negative_counterexample :
    0 ≤ worseningState.m_rate ∧
      cycleBoundary worseningState exampleTcb ∧
      (IncreaseWindow Resolution.NS exampleNewReno worseningState exampleTcb 1).1.m_rate
        = -36010 ∧
      (IncreaseWindow Resolution.US exampleNewReno worseningState exampleTcb 1).1.m_rate
        = -1301 / 50 ∧
      ¬ (0 ≤ (IncreaseWindow Resolution.NS exampleNewReno worseningState exampleTcb 1).1.m_rate) ∧
      ¬ (0 ≤ (IncreaseWindow Resolution.US exampleNewReno worseningState exampleTcb 1).1.m_rate)
    := by
  have hNS : (IncreaseWindow Resolution.NS exampleNewReno worseningState exampleTcb 1).1.m_rate
      = -36010 := by
    have h0 : Int.tdiv 0 1000 = 0 := by decide
    simp [IncreaseWindow, worseningState, exampleState, exampleTcb, seqGe, seqGt,
      Time.GetMicroSeconds, Resolution.ticksPerUs, Time.ofTicks, tdiv_2000000, h0]
    norm_num
  have hUS : (IncreaseWindow Resolution.US exampleNewReno worseningState exampleTcb 1).1.m_rate
      = -1301 / 50 := by
    simp [IncreaseWindow, worseningState, exampleState, exampleTcb, seqGe, seqGt,
      Time.GetMicroSeconds, Resolution.ticksPerUs, Time.ofTicks, Int.tdiv_one]
    norm_num
  refine ⟨by norm_num [worseningState, exampleState], by decide, hNS, hUS, ?_, ?_⟩
  · rw [hNS]; norm_num
  · rw [hUS]; norm_num

/-! ## The delay gradient (C6) -/

/-- At a cycle boundary `IncreaseWindow` stores `Time (new_rtt)` as the previous delay and
updates the smoothed gradient with the difference between the last sample and the previous
delay read back in microseconds. -/
theorem IncreaseWindow_gradient (res : Resolution)
    (newReno : TcpSocketState → Nat → TcpSocketState) (s : TcpTimely) (tcb : TcpSocketState)
    (n : Nat) (hb : cycleBoundary s tcb) :
    (IncreaseWindow res newReno s tcb n).1.m_prevRtt = Time.ofTicks s.new_rtt ∧
      (IncreaseWindow res newReno s tcb n).1.m_rttDiff
        = (1 - s.m_alpha) * s.m_rttDiff
          + s.m_alpha * ((s.new_rtt : ℚ) - ((s.m_prevRtt.GetMicroSeconds res : Int) : ℚ)) := by
  by_cases h1 : (s.new_rtt : ℚ) < s.m_tlow
  · rw [IncreaseWindow_tooLow res newReno s tcb n hb h1]; exact ⟨rfl, rfl⟩
  · by_cases h2 : (s.new_rtt : ℚ) > s.m_thigh
    · rw [IncreaseWindow_tooHigh res newReno s tcb n hb h1 h2]; exact ⟨rfl, rfl⟩
    · by_cases h3 : Spec.normalizedGradient res s ≤ 0
      · rw [IncreaseWindow_improving res newReno s tcb n hb h1 h2 h3]; exact ⟨rfl, rfl⟩
      · rw [IncreaseWindow_worsening res newReno s tcb n hb h1 h2 h3]; exact ⟨rfl, rfl⟩

/-- The example with two equal samples after the first cycle boundary, at nanosecond
resolution. -/
theorem sameDelayFirst_NS : sameDelayFirst Resolution.NS =
    { exampleState with
      new_rtt := 3000, m_begSndNxt := 200, m_prevRtt := 3000, m_rttDiff := 2999 / 10,
      m_rate := 22001 / 2500, m_baseRtt := 3000 } := by
  simp [sameDelayFirst, sameDelayStart, IncreaseWindow, exampleState, exampleTcb, seqGe, seqGt,
    Time.GetMicroSeconds, Resolution.ticksPerUs, Time.ofTicks, tdiv_1500, tdiv_2000000]
  norm_num

/-- The example with two equal samples after the second sample, at nanosecond resolution. -/
theorem sameDelaySampled_NS : sameDelaySampled Resolution.NS =
    { exampleState with
      new_rtt := 3000, m_begSndNxt := 200, m_prevRtt := 3000, m_rttDiff := 2999 / 10,
      m_rate := 22001 / 2500, m_baseRtt := 3000, m_cntRtt := 2 } := by
  rw [sameDelaySampled, sameDelayFirst_NS]
  simp [PktsAcked, exampleState, Time.IsZero, Time.GetMicroSeconds, Resolution.ticksPerUs,
    Time.ofTicks, tdiv_3000000]

/-- C6 evaluated at nanosecond resolution, the default: two cycle boundaries in a row are
closed with the same sample of 3000 microseconds.  After the first, the previous delay reads
back as 3 microseconds, not 3000; the second therefore uses the raw gradient 2997 instead of
0, and the smoothed gradient becomes `0.9 × 299.9 + 0.1 × 2997 = 569.61` instead of
`0.9 × 299.9 = 269.91`. -/
theorem C6_same_delay_raw_gradient_not_zero :
    cycleBoundary sameDelayStart exampleTcb ∧
      cycleBoundary (sameDelaySampled Resolution.NS) exampleTcb200 ∧
      sameDelayStart.new_rtt = 3000 ∧
      (sameDelaySampled Resolution.NS).new_rtt = 3000 ∧
      (sameDelayFirst Resolution.NS).m_prevRtt.GetMicroSeconds Resolution.NS = 3 ∧
      (sameDelayFirst Resolution.NS).m_rttDiff = 2999 / 10 ∧
      (sameDelaySecond Resolution.NS).m_rttDiff
        = (1 - sameDelayStart.m_alpha) * (sameDelayFirst Resolution.NS).m_rttDiff
          + sameDelayStart.m_alpha * 2997 ∧
      (sameDelaySecond Resolution.NS).m_rttDiff = 56961 / 100 ∧
      (sameDelaySecond Resolution.NS).m_rttDiff
        ≠ (1 - sameDelayStart.m_alpha) * (sameDelayFirst Resolution.NS).m_rttDiff := by
  have hb2 : cycleBoundary (sameDelaySampled Resolution.NS) exampleTcb200 := by
    rw [sameDelaySampled_NS]; decide
  have hnew : (sameDelaySampled Resolution.NS).new_rtt = 3000 := by
    rw [sameDelaySampled_NS]
  have hprev : (sameDelayFirst Resolution.NS).m_prevRtt.GetMicroSeconds Resolution.NS = 3 := by
    rw [sameDelayFirst_NS]; exact tdiv_3000
  have hfirst : (sameDelayFirst Resolution.NS).m_rttDiff = 2999 / 10 := by
    rw [sameDelayFirst_NS]
  have hsecond : (sameDelaySecond Resolution.NS).m_rttDiff = 56961 / 100 := by
    rw [sameDelaySecond,
      (IncreaseWindow_gradient Resolution.NS exampleNewReno _ exampleTcb200 1 hb2).2,
      sameDelaySampled_NS]
    simp [exampleState, Time.GetMicroSeconds, Resolution.ticksPerUs, tdiv_3000]
    norm_num
  have halpha : sameDelayStart.m_alpha = 1 / 10 := rfl
  refine ⟨by decide, hb2, rfl, hnew, hprev, hfirst, ?_, hsecond, ?_⟩
  · rw [hsecond, hfirst, halpha]; norm_num
  · rw [hsecond, hfirst, halpha]; norm_num

/-- When one tick of `Time` is a microsecond the same run behaves as C6 says: the second
cycle boundary only multiplies the smoothed gradient by `1 − alpha`. -/
theorem sameDelay_US :
    (sameDelaySecond Resolution.US).m_rttDiff
      = (1 - sameDelayStart.m_alpha) * (sameDelayFirst Resolution.US).m_rttDiff := by
  have h1 : sameDelayFirst Resolution.US =
      { exampleState with
        new_rtt := 3000, m_begSndNxt := 200, m_prevRtt := 3000, m_rttDiff := 150,
        m_rate := 49997 / 5000, m_baseRtt := 3000 } := by
    simp [sameDelayFirst, sameDelayStart, IncreaseWindow, exampleState, exampleTcb, seqGe,
      seqGt, Time.GetMicroSeconds, Resolution.ticksPerUs, Time.ofTicks, Int.tdiv_one]
    norm_num
  have h2 : sameDelaySampled Resolution.US =
      { exampleState with
        new_rtt := 3000, m_begSndNxt := 200, m_prevRtt := 3000, m_rttDiff := 150,
        m_rate := 49997 / 5000, m_baseRtt := 3000, m_cntRtt := 2 } := by
    rw [sameDelaySampled, h1]
    simp [PktsAcked, exampleState, Time.IsZero, Time.GetMicroSeconds, Resolution.ticksPerUs,
      Time.ofTicks, Int.tdiv_one]
  have hb2 : cycleBoundary (sameDelaySampled Resolution.US) exampleTcb200 := by
    rw [h2]; decide
  rw [sameDelaySecond,
    (IncreaseWindow_gradient Resolution.US exampleNewReno _ exampleTcb200 1 hb2).2, h2, h1]
  have halpha : sameDelayStart.m_alpha = 1 / 10 := rfl
  rw [halpha]
  simp [exampleState, Time.GetMicroSeconds, Resolution.ticksPerUs, Int.tdiv_one]

/-! ## Sample ingestion (C7, C8) -/

/-- C7: for a non-zero sample, `PktsAcked` leaves the base RTT at the minimum of the old base
RTT and the sample, the sample count one higher and the last sample equal to the sample (in
microseconds), and changes no other member of the controller. -/
theorem C7_sample_ingestion (res : Resolution) (s : TcpTimely) (rtt : Time) (h : rtt ≠ 0) :
    (PktsAcked res s rtt).m_baseRtt = min s.m_baseRtt rtt ∧
      (PktsAcked res s rtt).m_cntRtt = s.m_cntRtt + 1 ∧
      (PktsAcked res s rtt).new_rtt = rtt.GetMicroSeconds res ∧
      (PktsAcked res s rtt).m_doingTimelyNow = s.m_doingTimelyNow ∧
      (PktsAcked res s rtt).m_minRtt = s.m_minRtt ∧
      (PktsAcked res s rtt).m_begSndNxt = s.m_begSndNxt ∧
      (PktsAcked res s rtt).m_rate = s.m_rate ∧
      (PktsAcked res s rtt).m_prevRtt = s.m_prevRtt ∧
      (PktsAcked res s rtt).m_rttDiff = s.m_rttDiff ∧
      (PktsAcked res s rtt).m_compEvents = s.m_compEvents ∧
      (PktsAcked res s rtt).m_alpha = s.m_alpha ∧
      (PktsAcked res s rtt).m_beta = s.m_beta ∧
      (PktsAcked res s rtt).m_delta = s.m_delta ∧
      (PktsAcked res s rtt).m_thigh = s.m_thigh ∧
      (PktsAcked res s rtt).m_tlow = s.m_tlow := by
  simp [PktsAcked, Time.IsZero, h]

/-- C7 on the example state with a sample of 1200 microseconds at nanosecond resolution. -/
theorem C7_sample_ingestion_witness :
    (1200000 : Time) ≠ 0 ∧
      (PktsAcked Resolution.NS exampleState 1200000).m_baseRtt = 1200000 ∧
      (PktsAcked Resolution.NS exampleState 1200000).m_cntRtt = 2 ∧
      (PktsAcked Resolution.NS exampleState 1200000).new_rtt = 1200 ∧
      (PktsAcked Resolution.NS exampleState 1200000).m_rate = 10 :=
  have h := C7_sample_ingestion Resolution.NS exampleState 1200000 (by decide)
  ⟨by decide, h.1.trans (by decide), h.2.1, h.2.2.1.trans (by decide), h.2.2.2.2.2.2.1⟩

/-- C8: a zero sample leaves the controller as it is; `PktsAcked` is a total function, so no
error is raised. -/
theorem C8_zero_sample_ignored (res : Resolution) (s : TcpTimely) :
    PktsAcked res s 0 = s := by
  simp [PktsAcked, Time.IsZero]

/-! ## The base RTT along a run (C9) -/

/-- No call raises the base RTT. -/
theorem step_baseRtt_le (res : Resolution) (newReno : TcpSocketState → Nat → TcpSocketState)
    (s : TcpTimely) (c : Call) : (step res newReno s c).m_baseRtt ≤ s.m_baseRtt := by
  cases c with
  | pktsAcked rtt =>
    simp only [step, PktsAcked]
    split
    · exact le_refl _
    · exact min_le_left _ _
  | congestionStateSet tcb newState =>
    simp only [step, CongestionStateSet, EnableTimely, DisableTimely]
    split <;> exact le_refl _
  | increaseWindow tcb n =>
    simp only [step]
    by_cases hb : cycleBoundary s tcb
    · by_cases h1 : (s.new_rtt : ℚ) < s.m_tlow
      · rw [IncreaseWindow_tooLow res newReno s tcb n hb h1]
      · by_cases h2 : (s.new_rtt : ℚ) > s.m_thigh
        · rw [IncreaseWindow_tooHigh res newReno s tcb n hb h1 h2]
        · by_cases h3 : Spec.normalizedGradient res s ≤ 0
          · rw [IncreaseWindow_improving res newReno s tcb n hb h1 h2 h3]
            exact min_le_left _ _
          · rw [IncreaseWindow_worsening res newReno s tcb n hb h1 h2 h3]
            exact min_le_left _ _
    · rw [IncreaseWindow_not_boundary res newReno s tcb n hb]

/-- The run after one more call. -/
theorem run_append_singleton (res : Resolution)
    (newReno : TcpSocketState → Nat → TcpSocketState) (s : TcpTimely) (cs : List Call)
    (c : Call) :
    run res newReno s (cs ++ [c]) = step res newReno (run res newReno s cs) c := by
  simp [run, List.foldl_append]

/-- The samples of a sequence of calls with one more call. -/
theorem samples_append_singleton (cs : List Call) (c : Call) :
    samples (cs ++ [c]) = samples cs ++ samples [c] := by
  induction cs with
  | nil => simp [samples]
  | cons d ds ih =>
    cases d <;> simp [samples, ih]

/-- After a run whose samples are all positive, the base RTT is at most every sample of the
run. -/
theorem run_baseRtt_le_samples (res : Resolution)
    (newReno : TcpSocketState → Nat → TcpSocketState) (s : TcpTimely) (cs : List Call) :
    (∀ r ∈ samples cs, 0 < r) → ∀ r ∈ samples cs, (run res newReno s cs).m_baseRtt ≤ r := by
  induction cs using List.reverseRecOn with
  | nil => intro _ r hr; simp [samples] at hr
  | append_singleton cs c ih =>
    intro hpos r hr
    rw [run_append_singleton]
    rw [samples_append_singleton] at hr hpos
    rcases List.mem_append.mp hr with hold | hnew
    · have hpos' : ∀ r ∈ samples cs, 0 < r := fun r hr => hpos r (List.mem_append_left _ hr)
      exact le_trans (step_baseRtt_le res newReno _ c) (ih hpos' r hold)
    · cases c with
      | pktsAcked rtt =>
        simp only [samples, List.mem_singleton] at hnew
        subst hnew
        have hr0 : r ≠ 0 := by
          have hgt : 0 < r := hpos r (List.mem_append_right _ (by simp [samples]))
          exact ne_of_gt hgt
        simp only [step, PktsAcked, Time.IsZero, hr0, decide_False, Bool.false_eq_true,
          if_false]
        exact min_le_right _ _
      | congestionStateSet tcb newState => simp [samples] at hnew
      | increaseWindow tcb n => simp [samples] at hnew

/-- C9: along every sequence of `PktsAcked`, `CongestionStateSet` and `IncreaseWindow` calls
whose samples are all positive, from every initial state, no call raises the base RTT, and
after each call the base RTT is at most every sample ingested so far, hence at most their
minimum. -/
theorem C9_baseRtt_never_increases (res : Resolution)
    (newReno : TcpSocketState → Nat → TcpSocketState) (s : TcpTimely) (cs : List Call)
    (c : Call) (hpos : ∀ r ∈ samples (cs ++ [c]), 0 < r) :
    (run res newReno s (cs ++ [c])).m_baseRtt ≤ (run res newReno s cs).m_baseRtt ∧
      ∀ r ∈ samples (cs ++ [c]), (run res newReno s (cs ++ [c])).m_baseRtt ≤ r := by
  constructor
  · rw [run_append_singleton]
    exact step_baseRtt_le res newReno _ c
  · exact run_baseRtt_le_samples res newReno s (cs ++ [c]) hpos

/-- C9 on an example: three positive samples around an enable and a cycle boundary. -/
theorem C9_baseRtt_never_increases_witness :
    (∀ r ∈ samples (exampleCalls ++ [Call.pktsAcked 1800000]), 0 < r) ∧
      ((run Resolution.NS exampleNewReno (TcpTimely.init 238328 10 0 0)
            (exampleCalls ++ [Call.pktsAcked 1800000])).m_baseRtt
          ≤ (run Resolution.NS exampleNewReno (TcpTimely.init 238328 10 0 0)
              exampleCalls).m_baseRtt ∧
        ∀ r ∈ samples (exampleCalls ++ [Call.pktsAcked 1800000]),
          (run Resolution.NS exampleNewReno (TcpTimely.init 238328 10 0 0)
            (exampleCalls ++ [Call.pktsAcked 1800000])).m_baseRtt ≤ r) :=
  ⟨by simp [exampleCalls, samples],
    C9_baseRtt_never_increases Resolution.NS exampleNewReno (TcpTimely.init 238328 10 0 0)
      exampleCalls (Call.pktsAcked 1800000) (by simp [exampleCalls, samples])⟩

/-! ## Enabling the controller (C10) -/

/-- A sequence number below another is not at or above it. -/
theorem seqGe_eq_false_of_seqLt (a b : Nat) (h : seqLt a b = true) : seqGe a b = false := by
  unfold seqLt at h
  unfold seqGe
  cases hgt : seqGt a b
  · by_cases hab : a = b
    · simp [hgt, hab] at h
    · simp [hab]
  · simp [hgt] at h

/-- C10: `EnableTimely` with next sequence number to send `S` turns the controller on, resets
the sample count to 0, sets the cycle start to `S` and the normalising delay to the fixed
`Time (2000000)` (`CongestionStateSet` with `CA_OPEN` is this call); a following
`IncreaseWindow` whose highest acknowledged sequence number is below `S` changes neither the
controller nor the socket state, the window included. -/
theorem C10_enable_then_mid_cycle (res : Resolution)
    (newReno : TcpSocketState → Nat → TcpSocketState) (s : TcpTimely)
    (tcb tcb2 : TcpSocketState) (n : Nat)
    (h : seqLt tcb2.m_lastAckedSeq tcb.m_nextTxSequence = true) :
    CongestionStateSet s tcb TcpCongState_t.CA_OPEN = EnableTimely s tcb ∧
      (EnableTimely s tcb).m_doingTimelyNow = true ∧
      (EnableTimely s tcb).m_cntRtt = 0 ∧
      (EnableTimely s tcb).m_begSndNxt = tcb.m_nextTxSequence ∧
      (EnableTimely s tcb).m_minRtt = Time.ofTicks 2000000 ∧
      IncreaseWindow res newReno (EnableTimely s tcb) tcb2 n = (EnableTimely s tcb, tcb2) := by
  refine ⟨by simp [CongestionStateSet], rfl, rfl, rfl, rfl, ?_⟩
  exact IncreaseWindow_midCycle res newReno (EnableTimely s tcb) tcb2 n rfl
    (seqGe_eq_false_of_seqLt _ _ h)

/-- C10 on the example: enabled with 200 as the next sequence number to send, then an
`IncreaseWindow` while only sequence number 100 is acknowledged. -/
theorem C10_enable_then_mid_cycle_witness :
    seqLt exampleTcb.m_lastAckedSeq exampleTcb.m_nextTxSequence = true ∧
      (EnableTimely exampleState exampleTcb).m_begSndNxt = 200 ∧
      IncreaseWindow Resolution.NS exampleNewReno (EnableTimely exampleState exampleTcb)
          exampleTcb 1
        = (EnableTimely exampleState exampleTcb, exampleTcb) :=
  have h := C10_enable_then_mid_cycle Resolution.NS exampleNewReno exampleState exampleTcb
    exampleTcb 1 (by decide)
  ⟨by decide, h.2.2.2.1, h.2.2.2.2.2⟩

/-! ## Calling `IncreaseWindow` twice (C11) -/

/-- At a cycle boundary `IncreaseWindow` moves the cycle start to the next sequence number to
send, keeps the controller on, and leaves the sequence numbers of the socket state alone. -/
theorem IncreaseWindow_boundary_frame (res : Resolution)
    (newReno : TcpSocketState → Nat → TcpSocketState) (s : TcpTimely) (tcb : TcpSocketState)
    (n : Nat) (hb : cycleBoundary s tcb) :
    (IncreaseWindow res newReno s tcb n).1.m_begSndNxt = tcb.m_nextTxSequence ∧
      (IncreaseWindow res newReno s tcb n).1.m_doingTimelyNow = true ∧
      (IncreaseWindow res newReno s tcb n).2.m_lastAckedSeq = tcb.m_lastAckedSeq ∧
      (IncreaseWindow res newReno s tcb n).2.m_nextTxSequence = tcb.m_nextTxSequence := by
  have hen : s.m_doingTimelyNow = true := hb.1
  by_cases h1 : (s.new_rtt : ℚ) < s.m_tlow
  · rw [IncreaseWindow_tooLow res newReno s tcb n hb h1]; exact ⟨rfl, hen, rfl, rfl⟩
  · by_cases h2 : (s.new_rtt : ℚ) > s.m_thigh
    · rw [IncreaseWindow_tooHigh res newReno s tcb n hb h1 h2]; exact ⟨rfl, hen, rfl, rfl⟩
    · by_cases h3 : Spec.normalizedGradient res s ≤ 0
      · rw [IncreaseWindow_improving res newReno s tcb n hb h1 h2 h3]
        exact ⟨rfl, hen, rfl, rfl⟩
      · rw [IncreaseWindow_worsening res newReno s tcb n hb h1 h2 h3]
        exact ⟨rfl, hen, rfl, rfl⟩

/-- C11, as amended: after an `IncreaseWindow` that closes a cycle, a second call on the
resulting controller and socket state (same sequence numbers and segment count, no sample in
between) changes neither of them, provided the highest acknowledged sequence number is below
the next sequence number to send. -/
theorem C11_second_call_noop (res : Resolution)
    (newReno : TcpSocketState → Nat → TcpSocketState) (s : TcpTimely) (tcb : TcpSocketState)
    (n : Nat) (hb : cycleBoundary s tcb)
    (hlt : seqLt tcb.m_lastAckedSeq tcb.m_nextTxSequence = true) :
    IncreaseWindow res newReno (IncreaseWindow res newReno s tcb n).1
        (IncreaseWindow res newReno s tcb n).2 n
      = IncreaseWindow res newReno s tcb n := by
  obtain ⟨hbeg, hen, hack, hnxt⟩ := IncreaseWindow_boundary_frame res newReno s tcb n hb
  apply IncreaseWindow_midCycle res newReno _ _ n hen
  rw [hbeg, hack]
  exact seqGe_eq_false_of_seqLt _ _ hlt

/-- C11 on the example: sequence number 100 is acknowledged, 200 is the next to send. -/
theorem C11_second_call_noop_witness :
    (cycleBoundary exampleState exampleTcb ∧
      seqLt exampleTcb.m_lastAckedSeq exampleTcb.m_nextTxSequence = true) ∧
    IncreaseWindow Resolution.NS exampleNewReno
        (IncreaseWindow Resolution.NS exampleNewReno exampleState exampleTcb 1).1
        (IncreaseWindow Resolution.NS exampleNewReno exampleState exampleTcb 1).2 1
      = IncreaseWindow Resolution.NS exampleNewReno exampleState exampleTcb 1 :=
  ⟨⟨by decide, by decide⟩,
    C11_second_call_noop Resolution.NS exampleNewReno exampleState exampleTcb 1 (by decide)
      (by decide)⟩

/-- C11 as stated fails when everything sent is acknowledged: with sequence number 200 both
acknowledged and next to send, the first call closes a cycle (rate 10 to 11) and the second
call, same arguments and no sample in between, closes another one (rate 11 to 12). -/
theorem C11_second_call_counterexample :
    cycleBoundary exampleState allAckedTcb ∧
      (IncreaseWindow Resolution.NS exampleNewReno exampleState allAckedTcb 1).1.m_rate = 11 ∧
      (IncreaseWindow Resolution.NS exampleNewReno
          (IncreaseWindow Resolution.NS exampleNewReno exampleState allAckedTcb 1).1
          (IncreaseWindow Resolution.NS exampleNewReno exampleState allAckedTcb 1).2 1).1.m_rate
        = 12 ∧
      IncreaseWindow Resolution.NS exampleNewReno
          (IncreaseWindow Resolution.NS exampleNewReno exampleState allAckedTcb 1).1
          (IncreaseWindow Resolution.NS exampleNewReno exampleState allAckedTcb 1).2 1
        ≠ IncreaseWindow Resolution.NS exampleNewReno exampleState allAckedTcb 1 := by
  have hb : cycleBoundary exampleState allAckedTcb := by decide
  have hlow : (exampleState.new_rtt : ℚ) < exampleState.m_tlow := by
    norm_num [exampleState]
  have h1 := IncreaseWindow_tooLow Resolution.NS exampleNewReno exampleState allAckedTcb 1 hb hlow
  have hr1 : (IncreaseWindow Resolution.NS exampleNewReno exampleState allAckedTcb 1).1.m_rate
      = 11 := by
    rw [h1]; norm_num [exampleState]
  have hb2 : cycleBoundary
      (IncreaseWindow Resolution.NS exampleNewReno exampleState allAckedTcb 1).1
      (IncreaseWindow Resolution.NS exampleNewReno exampleState allAckedTcb 1).2 := by
    rw [h1]; decide
  have hlow2 : (((IncreaseWindow Resolution.NS exampleNewReno exampleState allAckedTcb 1).1).new_rtt
      : ℚ) < ((IncreaseWindow Resolution.NS exampleNewReno exampleState allAckedTcb 1).1).m_tlow := by
    rw [h1]; norm_num [exampleState]
  have hr2 : (IncreaseWindow Resolution.NS exampleNewReno
      (IncreaseWindow Resolution.NS exampleNewReno exampleState allAckedTcb 1).1
      (IncreaseWindow Resolution.NS exampleNewReno exampleState allAckedTcb 1).2 1).1.m_rate
      = 12 := by
    rw [IncreaseWindow_tooLow Resolution.NS exampleNewReno _ _ 1 hb2 hlow2]
    show (IncreaseWindow Resolution.NS exampleNewReno exampleState allAckedTcb 1).1.m_rate
      + (IncreaseWindow Resolution.NS exampleNewReno exampleState allAckedTcb 1).1.m_delta = 12
    rw [hr1, h1]; norm_num [exampleState]
  refine ⟨hb, hr1, hr2, ?_⟩
  intro heq
  have := congrArg (fun p => p.1.m_rate) heq
  simp only [hr1, hr2] at this
  norm_num at this

/-! ## The slow-start threshold (C12, C13, C19) -/

/-- C12: when the window is at least one segment (32-bit values, twice the segment size
below `2^32`), `GetSsThresh` returns `max (min ssthresh (window − segmentSize))
(2 × segmentSize)`; it is a function of the socket state alone and writes no member of the
controller.  For window 10000, threshold 8000 and segment size 1000 it returns 8000. -/
theorem C12_ssthresh_value (tcb : TcpSocketState) (bytesInFlight : Nat)
    (hw : tcb.m_cWnd < 2 ^ 32) (hseg : tcb.m_segmentSize ≤ tcb.m_cWnd)
    (h2 : 2 * tcb.m_segmentSize < 2 ^ 32) :
    GetSsThresh tcb bytesInFlight
        = max (min tcb.m_ssThresh (tcb.m_cWnd - tcb.m_segmentSize)) (2 * tcb.m_segmentSize) ∧
      (tcb.m_cWnd = 10000 ∧ tcb.m_ssThresh = 8000 ∧ tcb.m_segmentSize = 1000 →
        GetSsThresh tcb bytesInFlight = 8000) := by
  have hsub : (tcb.m_cWnd + 2 ^ 32 - tcb.m_segmentSize) % 2 ^ 32
      = tcb.m_cWnd - tcb.m_segmentSize := by
    have : tcb.m_cWnd + 2 ^ 32 - tcb.m_segmentSize
        = (tcb.m_cWnd - tcb.m_segmentSize) + 2 ^ 32 := by omega
    rw [this, Nat.add_mod_right]
    exact Nat.mod_eq_of_lt (by omega)
  have hdbl : (2 * tcb.m_segmentSize) % 2 ^ 32 = 2 * tcb.m_segmentSize :=
    Nat.mod_eq_of_lt h2
  have hval : GetSsThresh tcb bytesInFlight
      = max (min tcb.m_ssThresh (tcb.m_cWnd - tcb.m_segmentSize)) (2 * tcb.m_segmentSize) := by
    unfold GetSsThresh
    rw [hsub, hdbl]
  refine ⟨hval, ?_⟩
  rintro ⟨hc, hs, hg⟩
  rw [hval, hc, hs, hg]
  decide

/-- C12 on the example socket state: window 10000, threshold 8000, segment size 1000. -/
theorem C12_ssthresh_value_witness :
    (exampleTcb.m_cWnd < 2 ^ 32 ∧ exampleTcb.m_segmentSize ≤ exampleTcb.m_cWnd ∧
      2 * exampleTcb.m_segmentSize < 2 ^ 32) ∧
    GetSsThresh exampleTcb 0 = 8000 :=
  ⟨⟨by decide, by decide, by decide⟩,
    (C12_ssthresh_value exampleTcb 0 (by decide) (by decide) (by decide)).2
      ⟨rfl, rfl, rfl⟩⟩

/-- C13 evaluated: with window 500 below the segment size 1000 and threshold 8000, the
unsigned subtraction wraps to `2^32 − 500`, the minimum is the threshold, and `GetSsThresh`
returns 8000, not `2 × 1000`. -/
theorem C13_small_window_returns_ssthresh :
    smallWindowTcb.m_cWnd < smallWindowTcb.m_segmentSize ∧
      (smallWindowTcb.m_cWnd + 2 ^ 32 - smallWindowTcb.m_segmentSize) % 2 ^ 32 = 4294966796 ∧
      GetSsThresh smallWindowTcb 0 = 8000 ∧
      GetSsThresh smallWindowTcb 0 ≠ 2 * smallWindowTcb.m_segmentSize := by
  decide

/-- C19: for 32-bit window, threshold and segment size with twice the segment size below
`2^32`, the value of `GetSsThresh` is at least `2 × segmentSize` and at most
`max ssthresh (2 × segmentSize)`, also when the window is below the segment size and the
subtraction wraps. -/
theorem C19_ssthresh_bounds (tcb : TcpSocketState) (bytesInFlight : Nat)
    (_hw : tcb.m_cWnd < 2 ^ 32) (_hs : tcb.m_ssThresh < 2 ^ 32)
    (h2 : 2 * tcb.m_segmentSize < 2 ^ 32) :
    2 * tcb.m_segmentSize ≤ GetSsThresh tcb bytesInFlight ∧
      GetSsThresh tcb bytesInFlight ≤ max tcb.m_ssThresh (2 * tcb.m_segmentSize) := by
  have hdbl : (2 * tcb.m_segmentSize) % 2 ^ 32 = 2 * tcb.m_segmentSize :=
    Nat.mod_eq_of_lt h2
  unfold GetSsThresh
  rw [hdbl]
  constructor
  · exact le_max_right _ _
  · exact max_le_max (min_le_left _ _) (le_refl _)

/-- C19 on the socket state whose window is below the segment size. -/
theorem C19_ssthresh_bounds_witness :
    (smallWindowTcb.m_cWnd < 2 ^ 32 ∧ smallWindowTcb.m_ssThresh < 2 ^ 32 ∧
      2 * smallWindowTcb.m_segmentSize < 2 ^ 32) ∧
    (2 * smallWindowTcb.m_segmentSize ≤ GetSsThresh smallWindowTcb 0 ∧
      GetSsThresh smallWindowTcb 0
        ≤ max smallWindowTcb.m_ssThresh (2 * smallWindowTcb.m_segmentSize)) :=
  ⟨⟨by decide, by decide, by decide⟩,
    C19_ssthresh_bounds smallWindowTcb 0 (by decide) (by decide) (by decide)⟩

/-! ## Disabling the controller (C14, C15) -/

/-- C14: `DisableTimely` (which is what `CongestionStateSet` does for every state other than
`CA_OPEN`) turns the controller off and leaves every other member as it is. -/
theorem C14_disable_frame (s : TcpTimely) (tcb : TcpSocketState) :
    CongestionStateSet s tcb TcpCongState_t.CA_DISORDER = DisableTimely s ∧
      CongestionStateSet s tcb TcpCongState_t.CA_CWR = DisableTimely s ∧
      CongestionStateSet s tcb TcpCongState_t.CA_RECOVERY = DisableTimely s ∧
      CongestionStateSet s tcb TcpCongState_t.CA_LOSS = DisableTimely s ∧
      (DisableTimely s).m_doingTimelyNow = false ∧
      (DisableTimely s).m_rate = s.m_rate ∧
      (DisableTimely s).m_baseRtt = s.m_baseRtt ∧
      (DisableTimely s).m_rttDiff = s.m_rttDiff ∧
      (DisableTimely s).m_prevRtt = s.m_prevRtt ∧
      (DisableTimely s).m_minRtt = s.m_minRtt ∧
      (DisableTimely s).m_cntRtt = s.m_cntRtt ∧
      (DisableTimely s).m_begSndNxt = s.m_begSndNxt ∧
      (DisableTimely s).m_compEvents = s.m_compEvents ∧
      (DisableTimely s).new_rtt = s.new_rtt ∧
      (DisableTimely s).m_alpha = s.m_alpha ∧
      (DisableTimely s).m_beta = s.m_beta ∧
      (DisableTimely s).m_delta = s.m_delta ∧
      (DisableTimely s).m_thigh = s.m_thigh ∧
      (DisableTimely s).m_tlow = s.m_tlow := by
  simp [CongestionStateSet, DisableTimely]

/-- C15: with the controller off, `IncreaseWindow` returns the socket state that
`TcpNewReno::IncreaseWindow` returns on the same arguments, its window included, and leaves
the controller as it is, whether or not the highest acknowledged sequence number has reached
the cycle start. -/
theorem C15_disabled_delegates (res : Resolution)
    (newReno : TcpSocketState → Nat → TcpSocketState) (s : TcpTimely) (tcb : TcpSocketState)
    (n : Nat) (hoff : s.m_doingTimelyNow = false) :
    (IncreaseWindow res newReno s tcb n).2 = newReno tcb n ∧
      (IncreaseWindow res newReno s tcb n).2.m_cWnd = (newReno tcb n).m_cWnd ∧
      (IncreaseWindow res newReno s tcb n).1 = s := by
  rw [IncreaseWindow_disabled res newReno s tcb n hoff]
  exact ⟨rfl, rfl, rfl⟩

/-- C15 on the example state with the controller off, at a point where the highest
acknowledged sequence number has reached the cycle start. -/
theorem C15_disabled_delegates_witness :
    (disabledState.m_doingTimelyNow = false ∧
      seqGe exampleTcb.m_lastAckedSeq disabledState.m_begSndNxt = true) ∧
    ((IncreaseWindow Resolution.NS exampleNewReno disabledState exampleTcb 1).2
        = exampleNewReno exampleTcb 1 ∧
      (IncreaseWindow Resolution.NS exampleNewReno disabledState exampleTcb 1).2.m_cWnd
        = (exampleNewReno exampleTcb 1).m_cWnd ∧
      (IncreaseWindow Resolution.NS exampleNewReno disabledState exampleTcb 1).1
        = disabledState) :=
  ⟨⟨rfl, by decide⟩,
    C15_disabled_delegates Resolution.NS exampleNewReno disabledState exampleTcb 1 rfl⟩

/-! ## The normalising delay (C16) -/

/-- A call of `IncreaseWindow` leaves the normalising delay as it is. -/
theorem IncreaseWindow_minRtt (res : Resolution)
    (newReno : TcpSocketState → Nat → TcpSocketState) (s : TcpTimely) (tcb : TcpSocketState)
    (n : Nat) : (IncreaseWindow res newReno s tcb n).1.m_minRtt = s.m_minRtt := by
  by_cases hb : cycleBoundary s tcb
  · by_cases h1 : (s.new_rtt : ℚ) < s.m_tlow
    · rw [IncreaseWindow_tooLow res newReno s tcb n hb h1]
    · by_cases h2 : (s.new_rtt : ℚ) > s.m_thigh
      · rw [IncreaseWindow_tooHigh res newReno s tcb n hb h1 h2]
      · by_cases h3 : Spec.normalizedGradient res s ≤ 0
        · rw [IncreaseWindow_improving res newReno s tcb n hb h1 h2 h3]
        · rw [IncreaseWindow_worsening res newReno s tcb n hb h1 h2 h3]
  · rw [IncreaseWindow_not_boundary res newReno s tcb n hb]

/-- A call of `PktsAcked` leaves the normalising delay as it is. -/
theorem PktsAcked_minRtt (res : Resolution) (s : TcpTimely) (rtt : Time) :
    (PktsAcked res s rtt).m_minRtt = s.m_minRtt := by
  unfold PktsAcked
  split <;> rfl

/-- Once the normalising delay is `Time (2000000)`, every call keeps it there. -/
theorem step_minRtt_fixed (res : Resolution)
    (newReno : TcpSocketState → Nat → TcpSocketState) (s : TcpTimely) (c : Call)
    (h : s.m_minRtt = Time.ofTicks 2000000) :
    (step res newReno s c).m_minRtt = Time.ofTicks 2000000 := by
  cases c with
  | pktsAcked rtt => simp only [step]; rw [PktsAcked_minRtt, h]
  | congestionStateSet tcb newState =>
    simp only [step, CongestionStateSet]
    split
    · rfl
    · exact h
  | increaseWindow tcb n => simp only [step]; rw [IncreaseWindow_minRtt, h]

/-- Once the normalising delay is `Time (2000000)`, every sequence of calls keeps it
there. -/
theorem run_minRtt_fixed (res : Resolution)
    (newReno : TcpSocketState → Nat → TcpSocketState) (cs : List Call) :
    ∀ s : TcpTimely, s.m_minRtt = Time.ofTicks 2000000 →
      (run res newReno s cs).m_minRtt = Time.ofTicks 2000000 := by
  induction cs with
  | nil => intro s h; exact h
  | cons c cs ih =>
    intro s h
    have hrun : run res newReno s (c :: cs) = run res newReno (step res newReno s c) cs := by
      simp [run]
    rw [hrun]
    exact ih _ (step_minRtt_fixed res newReno s c h)

/-- C16: `PktsAcked`, `DisableTimely` and `IncreaseWindow` (in every branch) leave the
normalising delay `m_minRtt` as it was, `EnableTimely` sets it to the fixed `Time (2000000)`,
and after any sequence of calls that follows an enable it is still that constant. -/
theorem C16_minRtt_only_set_by_enable (res : Resolution)
    (newReno : TcpSocketState → Nat → TcpSocketState) (s : TcpTimely) (tcb : TcpSocketState)
    (rtt : Time) (n : Nat) (cs : List Call) :
    (PktsAcked res s rtt).m_minRtt = s.m_minRtt ∧
      (DisableTimely s).m_minRtt = s.m_minRtt ∧
      (IncreaseWindow res newReno s tcb n).1.m_minRtt = s.m_minRtt ∧
      (EnableTimely s tcb).m_minRtt = Time.ofTicks 2000000 ∧
      (run res newReno (EnableTimely s tcb) cs).m_minRtt = Time.ofTicks 2000000 :=
  ⟨PktsAcked_minRtt res s rtt, rfl, IncreaseWindow_minRtt res newReno s tcb n, rfl,
    run_minRtt_fixed res newReno cs (EnableTimely s tcb) rfl⟩

/-! ## The base RTT at a cycle boundary (C17) -/

/-- The example of the base RTT after its sample, member by member. -/
theorem baseDelaySampled_eq : baseDelaySampled =
    { exampleState with m_rttDiff := -1000000, new_rtt := 3000, m_cntRtt := 2 } := by
  simp [baseDelaySampled, PktsAcked, exampleState, Time.IsZero, Time.GetMicroSeconds,
    Resolution.ticksPerUs, tdiv_3000000]

/-- At a cycle boundary `IncreaseWindow` leaves the base RTT alone in the too-low and
too-high regions and lowers it to `Time (new_rtt)`, a raw tick count, in the other two. -/
theorem IncreaseWindow_baseRtt (res : Resolution)
    (newReno : TcpSocketState → Nat → TcpSocketState) (s : TcpTimely) (tcb : TcpSocketState)
    (n : Nat) (hb : cycleBoundary s tcb) :
    (IncreaseWindow res newReno s tcb n).1.m_baseRtt
      = if Spec.regionOf res s = Spec.Region.tooLow ∨ Spec.regionOf res s = Spec.Region.tooHigh
        then s.m_baseRtt else min s.m_baseRtt (Time.ofTicks s.new_rtt) := by
  by_cases h1 : (s.new_rtt : ℚ) < s.m_tlow
  · rw [IncreaseWindow_tooLow res newReno s tcb n hb h1, regionOf_tooLow res s h1]
    simp
  · by_cases h2 : (s.new_rtt : ℚ) > s.m_thigh
    · rw [IncreaseWindow_tooHigh res newReno s tcb n hb h1 h2, regionOf_tooHigh res s h1 h2]
      simp
    · by_cases h3 : Spec.normalizedGradient res s ≤ 0
      · rw [IncreaseWindow_improving res newReno s tcb n hb h1 h2 h3,
          regionOf_improving res s h1 h2 h3]
        simp
      · rw [IncreaseWindow_worsening res newReno s tcb n hb h1 h2 h3,
          regionOf_worsening res s h1 h2 h3]
        simp

/-- C17 evaluated at nanosecond resolution, the default: the base RTT is 1500 microseconds
(1500000 ticks), `PktsAcked` has recorded a sample of 3000 microseconds (3000000 ticks), and
the cycle ends in the improving region.  `IncreaseWindow` lowers the base RTT to 3000 ticks,
which is 3 microseconds, instead of leaving it at the minimum of the old base RTT and the
sample, 1500000 ticks. -/
theorem C17_baseRtt_lowered_to_raw_count :
    baseDelaySampled.m_baseRtt = 1500000 ∧
      baseDelaySampled.new_rtt = 3000 ∧
      cycleBoundary baseDelaySampled exampleTcb ∧
      Spec.regionOf Resolution.NS baseDelaySampled = Spec.Region.improving ∧
      (IncreaseWindow Resolution.NS exampleNewReno baseDelaySampled exampleTcb 1).1.m_baseRtt
        = 3000 ∧
      Time.GetMicroSeconds Resolution.NS
          (IncreaseWindow Resolution.NS exampleNewReno baseDelaySampled exampleTcb 1).1.m_baseRtt
        = 3 ∧
      min baseDelaySampled.m_baseRtt (3000000 : Time) = 1500000 ∧
      (IncreaseWindow Resolution.NS exampleNewReno baseDelaySampled exampleTcb 1).1.m_baseRtt
        ≠ min baseDelaySampled.m_baseRtt (3000000 : Time) := by
  have hb : cycleBoundary baseDelaySampled exampleTcb := by
    rw [baseDelaySampled_eq]; decide
  have hreg : Spec.regionOf Resolution.NS baseDelaySampled = Spec.Region.improving := by
    rw [baseDelaySampled_eq]
    simp [Spec.regionOf, Spec.normalizedGradient, Spec.delayGradientEwma,
      Spec.minDelayForCycle, exampleState, Time.GetMicroSeconds, Resolution.ticksPerUs,
      Time.ofTicks, tdiv_1500, tdiv_2000000]
    norm_num
  have hbase0 : baseDelaySampled.m_baseRtt = 1500000 := by rw [baseDelaySampled_eq]; rfl
  have hnew : baseDelaySampled.new_rtt = 3000 := by rw [baseDelaySampled_eq]
  have hbase : (IncreaseWindow Resolution.NS exampleNewReno baseDelaySampled
      exampleTcb 1).1.m_baseRtt = 3000 := by
    rw [IncreaseWindow_baseRtt Resolution.NS exampleNewReno baseDelaySampled exampleTcb 1 hb,
      hreg, hbase0, hnew]
    decide
  refine ⟨hbase0, hnew, hb, hreg, hbase, ?_, ?_, ?_⟩
  · rw [hbase]; exact tdiv_3000
  · rw [hbase0]; decide
  · rw [hbase, hbase0]; decide

/-! ## The size of the too-high decrease (C18) -/

/-- C18: in the too-high region, with `beta` in (0,1), `tHigh > 0` and a positive rate, the
rate after `IncreaseWindow` lies strictly between `(1 − beta) × rate` and `rate`; this branch
never makes a positive rate zero or negative. -/
theorem C18_too_high_decrease_bounded (res : Resolution)
    (newReno : TcpSocketState → Nat → TcpSocketState) (s : TcpTimely) (tcb : TcpSocketState)
    (n : Nat) (hb : cycleBoundary s tcb) (hlow : ¬ (s.new_rtt : ℚ) < s.m_tlow)
    (hhigh : (s.new_rtt : ℚ) > s.m_thigh) (hbeta : 0 < s.m_beta ∧ s.m_beta < 1)
    (ht : 0 < s.m_thigh) (hrate : 0 < s.m_rate) :
    (1 - s.m_beta) * s.m_rate < (IncreaseWindow res newReno s tcb n).1.m_rate ∧
      (IncreaseWindow res newReno s tcb n).1.m_rate < s.m_rate ∧
      0 < (IncreaseWindow res newReno s tcb n).1.m_rate := by
  rw [IncreaseWindow_tooHigh res newReno s tcb n hb hlow hhigh]
  show (1 - s.m_beta) * s.m_rate
        < s.m_rate * (1 - s.m_beta * (1 - s.m_thigh / (s.new_rtt : ℚ))) ∧
      s.m_rate * (1 - s.m_beta * (1 - s.m_thigh / (s.new_rtt : ℚ))) < s.m_rate ∧
      0 < s.m_rate * (1 - s.m_beta * (1 - s.m_thigh / (s.new_rtt : ℚ)))
  obtain ⟨hf1, hf2⟩ := tooHigh_factor_bounds s.m_beta s.m_thigh (s.new_rtt : ℚ) hbeta.1 ht hhigh
  refine ⟨?_, ?_, ?_⟩
  · have := mul_lt_mul_of_pos_left hf1 hrate
    linarith
  · have := mul_lt_mul_of_pos_left hf2 hrate
    linarith
  · exact mul_pos hrate (by linarith [hbeta.2])

/-- C18 on the example state with a sample of 60000 microseconds: the new rate `26 / 3` lies
between 2 and 10. -/
theorem C18_too_high_decrease_bounded_witness :
    (cycleBoundary tooHighState exampleTcb ∧
      ¬ (tooHighState.new_rtt : ℚ) < tooHighState.m_tlow ∧
      (tooHighState.new_rtt : ℚ) > tooHighState.m_thigh ∧
      (0 < tooHighState.m_beta ∧ tooHighState.m_beta < 1) ∧
      0 < tooHighState.m_thigh ∧ 0 < tooHighState.m_rate) ∧
    ((1 - tooHighState.m_beta) * tooHighState.m_rate
        < (IncreaseWindow Resolution.NS exampleNewReno tooHighState exampleTcb 1).1.m_rate ∧
      (IncreaseWindow Resolution.NS exampleNewReno tooHighState exampleTcb 1).1.m_rate
        < tooHighState.m_rate ∧
      0 < (IncreaseWindow Resolution.NS exampleNewReno tooHighState exampleTcb 1).1.m_rate) :=
  ⟨⟨by decide, by norm_num [tooHighState, exampleState],
      by norm_num [tooHighState, exampleState], by norm_num [tooHighState, exampleState],
      by norm_num [tooHighState, exampleState], by norm_num [tooHighState, exampleState]⟩,
    C18_too_high_decrease_bounded Resolution.NS exampleNewReno tooHighState exampleTcb 1
      (by decide) (by norm_num [tooHighState, exampleState])
      (by norm_num [tooHighState, exampleState]) (by norm_num [tooHighState, exampleState])
      (by norm_num [tooHighState, exampleState]) (by norm_num [tooHighState, exampleState])⟩

/-! ## The first cycle of a new controller (C20) -/

/-- The constructor leaves the previous delay at `Time::Max ()`, the smoothed gradient at 0,
`alpha` at 0.1 and the controller on. -/
theorem init_fresh (TMP_MAX : Int) (rate : ℚ) (compEvents : Nat) (newRtt : Int) :
    (init TMP_MAX rate compEvents newRtt).m_prevRtt = Time.Max ∧
      (init TMP_MAX rate compEvents newRtt).m_rttDiff = 0 ∧
      (init TMP_MAX rate compEvents newRtt).m_alpha = 1 / 10 ∧
      (init TMP_MAX rate compEvents newRtt).m_doingTimelyNow = true :=
  ⟨rfl, rfl, rfl, rfl⟩

/-- C20: on a controller whose previous delay is still `Time::Max ()` and whose smoothed
gradient is still 0, as the constructor leaves them, with `alpha` in (0,1) and a positive
normalising delay, the first cycle boundary closed with a sample below `Time::Max ()` in
microseconds leaves a strictly negative smoothed gradient; when the sample lies between
`tLow` and `tHigh` the cycle is in the improving region, not the worsening one, and the rate
grows by the additive step. -/
theorem C20_first_cycle_improving (res : Resolution)
    (newReno : TcpSocketState → Nat → TcpSocketState) (s : TcpTimely) (tcb : TcpSocketState)
    (n : Nat) (hprev : s.m_prevRtt = Time.Max) (hdiff : s.m_rttDiff = 0)
    (ha : 0 < s.m_alpha ∧ s.m_alpha < 1) (hb : cycleBoundary s tcb)
    (hfin : s.new_rtt < Time.GetMicroSeconds res Time.Max)
    (hmin : 0 < Spec.minDelayForCycle res s) :
    (IncreaseWindow res newReno s tcb n).1.m_rttDiff < 0 ∧
      (¬ (s.new_rtt : ℚ) < s.m_tlow → ¬ (s.new_rtt : ℚ) > s.m_thigh →
        Spec.regionOf res s = Spec.Region.improving ∧
          Spec.regionOf res s ≠ Spec.Region.worsening ∧
          (IncreaseWindow res newReno s tcb n).1.m_rate
            = s.m_rate + (if s.m_compEvents + 1 ≥ 5 then 5 else 1) * s.m_delta) := by
  have hneg : Spec.delayGradientEwma res s < 0 := by
    unfold Spec.delayGradientEwma
    rw [hdiff, hprev, mul_zero, zero_add]
    have hlt : (s.new_rtt : ℚ) < ((Time.GetMicroSeconds res Time.Max : Int) : ℚ) := by
      exact_mod_cast hfin
    exact mul_neg_of_pos_of_neg ha.1 (by linarith)
  have hgrad := (IncreaseWindow_gradient res newReno s tcb n hb).2
  constructor
  · rw [hgrad]
    exact hneg
  · intro h1 h2
    have h3 : Spec.normalizedGradient res s ≤ 0 := by
      unfold Spec.normalizedGradient
      exact le_of_lt (div_neg_of_neg_of_pos hneg hmin)
    have hreg := regionOf_improving res s h1 h2 h3
    refine ⟨hreg, ?_, ?_⟩
    · rw [hreg]; decide
    · rw [IncreaseWindow_improving res newReno s tcb n hb h1 h2 h3]

/-- The largest `Time` is 9223372036854775 microseconds at nanosecond resolution. -/
theorem Time_Max_NS : Time.GetMicroSeconds Resolution.NS Time.Max = 9223372036854775 := by
  decide

/-- The normalising delay of the freshly constructed controller, `Time (TMP_MAX)`, is 238
microseconds at nanosecond resolution. -/
theorem freshlyConstructed_minDelay :
    Spec.minDelayForCycle Resolution.NS freshlyConstructed = 238 := by
  have h : Int.tdiv 238328 1000 = 238 := by decide
  simp [Spec.minDelayForCycle, freshlyConstructed, init, Time.GetMicroSeconds, Time.ofTicks,
    Resolution.ticksPerUs, h]

/-- C20 on a freshly constructed controller with a first sample of 3000 microseconds, at
nanosecond resolution. -/
theorem C20_first_cycle_improving_witness :
    (freshlyConstructed.m_prevRtt = Time.Max ∧ freshlyConstructed.m_rttDiff = 0 ∧
      (0 < freshlyConstructed.m_alpha ∧ freshlyConstructed.m_alpha < 1) ∧
      cycleBoundary freshlyConstructed exampleTcb ∧
      freshlyConstructed.new_rtt < Time.GetMicroSeconds Resolution.NS Time.Max ∧
      0 < Spec.minDelayForCycle Resolution.NS freshlyConstructed) ∧
    ((IncreaseWindow Resolution.NS exampleNewReno freshlyConstructed exampleTcb 1).1.m_rttDiff
        < 0 ∧
      (¬ (freshlyConstructed.new_rtt : ℚ) < freshlyConstructed.m_tlow →
        ¬ (freshlyConstructed.new_rtt : ℚ) > freshlyConstructed.m_thigh →
        Spec.regionOf Resolution.NS freshlyConstructed = Spec.Region.improving ∧
          Spec.regionOf Resolution.NS freshlyConstructed ≠ Spec.Region.worsening ∧
          (IncreaseWindow Resolution.NS exampleNewReno freshlyConstructed exampleTcb 1).1.m_rate
            = freshlyConstructed.m_rate
              + (if freshlyConstructed.m_compEvents + 1 ≥ 5 then 5 else 1)
                * freshlyConstructed.m_delta)) :=
  ⟨⟨rfl, rfl, by norm_num [freshlyConstructed, init], by decide,
      by rw [Time_Max_NS]; decide,
      by rw [freshlyConstructed_minDelay]; norm_num⟩,
    C20_first_cycle_improving Resolution.NS exampleNewReno freshlyConstructed exampleTcb 1
      rfl rfl (by norm_num [freshlyConstructed, init]) (by decide)
      (by rw [Time_Max_NS]; decide) (by rw [freshlyConstructed_minDelay]; norm_num)⟩

end ns3
